import Mathlib

/-!
Verification of the Personal-Website-Creator repository (src/app.py, src/main.py)
against its natural-language specification.

The Python code is shallowly embedded: strings are `List Char`, Python dicts
with a fixed key set are structures together with a string-keyed `get`
function, `str.replace` / `re.search`-style scanning are executable fuel-based
scans over character lists, and the BeautifulSoup document tree used by
`complete_html_structure` is an explicit tree type with an executable
parser/serializer that mirrors the `html.parser` builder's behaviour on the
well-formed documents appearing in the proofs (attribute values double-quoted,
void elements such as `<meta>` serialized in the XHTML style `<meta .../>`
exactly as BeautifulSoup prints them, raw text inside `<style>`).
-/

namespace PWC

set_option maxRecDepth 100000

/-- Shorthand: the character list of a string literal. -/
def S (s : String) : List Char := s.toList

/-- Lowercase every character, the embedding of Python's `str.lower()` /
`re.IGNORECASE` matching (ASCII case folding, which is all the source uses). -/
def lowerLC (s : List Char) : List Char := s.map Char.toLower

/-- Substring test: does `pat` occur contiguously in the second list? -/
def isSubstr (pat : List Char) : List Char → Bool
  | [] => pat.isEmpty
  | c :: cs => pat.isPrefixOf (c :: cs) || isSubstr pat cs

/-- Python `needle in haystack` / `re.search` of a literal pattern:
`pat` occurs as a contiguous substring. -/
def containsLC (hay pat : List Char) : Bool := isSubstr pat hay

/-- Case-insensitive containment: `re.search(pat, hay, re.IGNORECASE)` for a
literal, already-lowercase pattern. -/
def containsCI (hay pat : List Char) : Bool := containsLC (lowerLC hay) pat

/-- Number of occurrences of a character, Python's `str.count` for a
single-character needle. -/
def countChar (c : Char) (s : List Char) : Nat := s.count c

/-- Python `str.replace(pat, rep)`: replace every non-overlapping occurrence
of `pat`, scanning left to right.  Fuel-based (fuel ≥ length of the scanned
list) so that it is structurally recursive and reduces in the kernel. -/
def replaceFuel (pat rep : List Char) : Nat → List Char → List Char
  | _, [] => []
  | 0, s => s
  | fuel+1, c :: cs =>
    if pat.isPrefixOf (c :: cs) then rep ++ replaceFuel pat rep fuel (cs.drop (pat.length - 1))
    else c :: replaceFuel pat rep fuel cs

/-- Python `s.replace(pat, rep)`. -/
def pyReplace (s pat rep : List Char) : List Char := replaceFuel pat rep s.length s

/-- Any co-occurrence of `t` and `pat` in a common string is disjoint:
either `pat` ends at or before the start of `t`, or it starts at or after the
end of `t`. -/
def DisjointCo (t pat : List Char) : Prop :=
  ∀ l r u v : List Char, l ++ t ++ r = u ++ pat ++ v →
    u.length + pat.length ≤ l.length ∨ l.length + t.length ≤ u.length

/-- Decidable sufficient condition for `DisjointCo`: neither pattern occurs
inside the other, no nonempty suffix of `pat` is a prefix of `t`, and no
nonempty suffix of `t` is a prefix of `pat`. -/
def overlapFree (t pat : List Char) : Bool :=
  (!(isSubstr t pat)) && (!(isSubstr pat t)) &&
  (pat.tails.all fun z => z.isEmpty || !(z.isPrefixOf t)) &&
  (t.tails.all fun z => z.isEmpty || !(z.isPrefixOf pat))

/-! ## Embedding of `src/app.py` (the chat orchestrator)

`app.py` parses and imports fine as Python (unlike `main.py`, see the
renderer section below); its `chat_with_agent` generator drives the
portfolio pipeline.  The pieces relevant to the claims are modelled here as
pure functions of the agent's textual responses. -/

/-- The character `\x7b` (left curly brace). -/
def braceL : Char := Char.ofNat 123

/-- The character `\x7d` (right curly brace). -/
def braceR : Char := Char.ofNat 125

/-- The apostrophe / single-quote character. -/
def squote : Char := Char.ofNat 39

/-- Decimal rendering of a natural number, Python's `f"..\x7bn\x7d.."` for a
non-negative int. -/
def natLC (n : Nat) : List Char := (Nat.repr n).toList

/-- Python string-whitespace test used by `str.strip()`. -/
def isPyWs (c : Char) : Bool :=
  c == ' ' || c == '\t' || c == '\n' || c == '\r' || c == Char.ofNat 11 || c == Char.ofNat 12

/-- Python `str.strip()`. -/
def pyStrip (s : List Char) : List Char :=
  ((s.dropWhile isPyWs).reverse.dropWhile isPyWs).reverse

/-! ### app.py lines 95-100: intent detection and username extraction -/

/-- The regex character class `[a-zA-Z0-9-]` of app.py line 97. -/
def usernameClassChar (c : Char) : Bool := c.isAlpha || c.isDigit || c == '-'

/-- `re.search(r'github\.com/([a-zA-Z0-9-]+)', text)`: scan left to right for
`github.com/` followed by at least one username character; at a position where
the run after `github.com/` is empty the match fails and scanning continues. -/
def findGithubUsername : List Char → Option (List Char)
  | [] => none
  | c :: cs =>
    if (S "github.com/").isPrefixOf (c :: cs) then
      if (((c :: cs).drop 11).takeWhile usernameClassChar).isEmpty then findGithubUsername cs
      else some (((c :: cs).drop 11).takeWhile usernameClassChar)
    else findGithubUsername cs

/-- app.py line 97: the username is extracted from `message.lower()`. -/
def extract_username (message : List Char) : Option (List Char) :=
  findGithubUsername (lowerLC message)

/-- app.py line 95: a message is a portfolio request iff the lowercased text
contains both `portfolio` and `github.com/`. -/
def is_portfolio_request (message : List Char) : Bool :=
  containsLC (lowerLC message) (S "portfolio") && containsLC (lowerLC message) (S "github.com/")

/-- app.py line 52: `f"\x7busername\x7d_portfolio.html"`. -/
def portfolio_filename (username : List Char) : List Char := username ++ S "_portfolio.html"

/-- app.py line 149: `f"https://github.com/\x7busername\x7d.png"`. -/
def github_avatar_url (username : List Char) : List Char :=
  S "https://github.com/" ++ username ++ S ".png"

/-! ### JSON values and a model of `json.loads`

Only what `json.loads` accepts matters to the claims: objects, arrays,
strings (with the basic escapes), booleans, `null` and integer literals.
Float literals and exotic escapes are outside the model: the parser rejects
them, and no theorem below evaluates it on such an input. -/

inductive Json where
  | null
  | bool (b : Bool)
  | num (n : Int)
  | str (s : List Char)
  | arr (elems : List Json)
  | obj (members : List (List Char × Json))

/-- JSON whitespace. -/
def isWsJson (c : Char) : Bool := c == ' ' || c == '\n' || c == '\t' || c == '\r'

/-- Parse the remainder of a JSON string literal (after the opening quote),
returning the string contents and the input after the closing quote. -/
def jsonStrChars : List Char → Option (List Char × List Char)
  | [] => none
  | c :: cs =>
    if c == '"' then some ([], cs)
    else if c == '\\' then
      match cs with
      | [] => none
      | d :: ds =>
        if d == '"' || d == '\\' || d == '/' then (jsonStrChars ds).map (fun p => (d :: p.1, p.2))
        else if d == 'n' then (jsonStrChars ds).map (fun p => ('\n' :: p.1, p.2))
        else if d == 't' then (jsonStrChars ds).map (fun p => ('\t' :: p.1, p.2))
        else none
    else (jsonStrChars cs).map (fun p => (c :: p.1, p.2))

/-- Decimal digits to a number. -/
def digitsVal (ds : List Char) : Nat := ds.foldl (fun n c => n * 10 + (c.toNat - 48)) 0

/-- Parse a JSON integer literal (floats are rejected, see above). -/
def jsonParseNum (s : List Char) : Option (Json × List Char) :=
  let p := match s with
    | c :: t => if c == '-' then (true, t) else (false, s)
    | [] => (false, s)
  let ds := p.2.takeWhile Char.isDigit
  if ds.isEmpty then none
  else
    let rest := p.2.drop ds.length
    let bad := match rest with
      | c :: _ => c == '.' || c == 'e' || c == 'E'
      | [] => false
    if bad then none
    else some (.num (if p.1 then -(digitsVal ds : Int) else (digitsVal ds : Int)), rest)

/-- Requests of the JSON parser: a value, the elements of an array after `[`,
or the members of an object after the opening brace. -/
inductive JReq where
  | val (s : List Char)
  | arrElems (s : List Char) (acc : List Json)
  | objMembers (s : List Char) (acc : List (List Char × Json))

/-- Fuel-based recursive-descent JSON parser. -/
def jsonP : Nat → JReq → Option (Json × List Char)
  | 0, _ => none
  | fuel+1, .val s =>
    let s1 := s.dropWhile isWsJson
    if (S "null").isPrefixOf s1 then some (.null, s1.drop 4)
    else if (S "true").isPrefixOf s1 then some (.bool true, s1.drop 4)
    else if (S "false").isPrefixOf s1 then some (.bool false, s1.drop 5)
    else
      match s1 with
      | [] => none
      | c :: cs =>
        if c == '"' then (jsonStrChars cs).map (fun p => (.str p.1, p.2))
        else if c == '[' then jsonP fuel (.arrElems cs [])
        else if c == braceL then jsonP fuel (.objMembers cs [])
        else jsonParseNum s1
  | fuel+1, .arrElems s acc =>
    let s1 := s.dropWhile isWsJson
    match s1 with
    | [] => none
    | c :: cs =>
      if c == ']' && acc.isEmpty then some (.arr [], cs)
      else
        match jsonP fuel (.val s1) with
        | none => none
        | some (j, rest) =>
          match rest.dropWhile isWsJson with
          | ',' :: more => jsonP fuel (.arrElems more (j :: acc))
          | d :: more => if d == ']' then some (.arr (j :: acc).reverse, more) else none
          | [] => none
  | fuel+1, .objMembers s acc =>
    let s1 := s.dropWhile isWsJson
    match s1 with
    | [] => none
    | c :: cs =>
      if c == braceR && acc.isEmpty then some (.obj [], cs)
      else if c == '"' then
        match jsonStrChars cs with
        | none => none
        | some (key, rest) =>
          match rest.dropWhile isWsJson with
          | ':' :: more =>
            match jsonP fuel (.val more) with
            | none => none
            | some (j, rest2) =>
              match rest2.dropWhile isWsJson with
              | ',' :: more2 => jsonP fuel (.objMembers more2 ((key, j) :: acc))
              | d :: more2 => if d == braceR then some (.obj ((key, j) :: acc).reverse, more2) else none
              | [] => none
          | _ => none
      else none

/-- Model of `json.loads`: parse one value and require only whitespace after
it; `none` models a raised `JSONDecodeError`. -/
def jsonLoads (s : List Char) : Option Json :=
  match jsonP (2 * s.length + 4) (.val s) with
  | some (j, rest) => if (rest.dropWhile isWsJson).isEmpty then some j else none
  | none => none

/-! ### app.py lines 121-133: extracting a JSON payload from a model response -/

/-- Scan for the earliest close fence `\n\x60\x60\x60` and return the text
before it (the lazy `(.*?)` of the fence regex). -/
def takeUntilClose : List Char → Option (List Char)
  | [] => none
  | c :: cs =>
    if (S "\n```").isPrefixOf (c :: cs) then some []
    else (takeUntilClose cs).map (fun b => c :: b)

/-- The regex `r'\x60\x60\x60(?:TAG)?\n(.*?)\n\x60\x60\x60'` with `re.DOTALL`:
the body of the leftmost fenced code block that is either tagged `TAG` or
untagged, lazily ended at the first close fence.  A position where an opening
fence has no later close fence does not match, and scanning continues. -/
def fencedBody (tag : List Char) : List Char → Option (List Char)
  | [] => none
  | c :: cs =>
    match (if (S "```" ++ tag ++ S "\n").isPrefixOf (c :: cs) then
             takeUntilClose ((c :: cs).drop (4 + tag.length))
           else if (S "```\n").isPrefixOf (c :: cs) then
             takeUntilClose ((c :: cs).drop 4)
           else none) with
    | some b => some b
    | none => fencedBody tag cs

/-- The regex `r'(\x7b.*\x7d)'` with `re.DOTALL` (greedy): the span from the
first `\x7b` that is followed by some `\x7d` through the last `\x7d` of the
text. -/
def braceSpan (s : List Char) : Option (List Char) :=
  let rest := s.dropWhile (fun c => !(c == braceL))
  if rest.isEmpty then none
  else
    let rev := rest.reverse.dropWhile (fun c => !(c == braceR))
    if rev.isEmpty then none else some rev.reverse

/-- Outcome of one profile-fetch attempt (`github_agent.run` + extraction,
app.py lines 114-141): the extracted JSON, a raised exception (from the run
itself or from `json.loads`), or silently no data (no fenced block and no
brace span: no exception is raised and `profile_data` stays `None`). -/
inductive ExtractOutcome where
  | ok (data : Json)
  | exn
  | noData

/-- app.py lines 121-133: try the fenced block first, then the first
`\x7b...\x7d` span with every single quote replaced by a double quote. -/
def extract_profile_data (resp : List Char) : ExtractOutcome :=
  match fencedBody (S "json") resp with
  | some body =>
    match jsonLoads body with
    | some j => .ok j
    | none => .exn
  | none =>
    match braceSpan resp with
    | some span =>
      match jsonLoads (span.map (fun c => if c == squote then '"' else c)) with
      | some j => .ok j
      | none => .exn
    | none => .noData

/-! ### app.py lines 110-152: the profile-fetch retry loop -/

/-- The status updates pushed by the retry loop's exception handler. -/
inductive RetryEvent where
  | retrying (k : Nat)
  | exhausted
deriving DecidableEq, Repr

/-- app.py lines 114-141: `while retry_count < max_retries and profile_data is
None`.  The trace lists the outcome of each successive attempt; an empty
remaining trace with the loop still live models an unfinished run and returns
the state reached so far. -/
def profile_fetch_loop : List ExtractOutcome → Nat → Option Json → List RetryEvent →
    Option Json × List RetryEvent
  | [], _, data, evs => (data, evs)
  | a :: rest, n, data, evs =>
    if 3 ≤ n ∨ data.isSome then (data, evs)
    else
      match a with
      | .ok j => profile_fetch_loop rest n (some j) evs
      | .exn =>
        if n + 1 < 3 then profile_fetch_loop rest (n + 1) data (evs ++ [.retrying (n + 1)])
        else profile_fetch_loop rest (n + 1) data (evs ++ [.exhausted])
      | .noData => profile_fetch_loop rest n data evs

/-- app.py lines 144-152: the minimal constructed profile used as the
fallback value. -/
def basic_profile (username : List Char) : Json :=
  .obj [ (S "profile", .obj [ (S "name", .str username),
                              (S "bio", .str (S "GitHub User")),
                              (S "avatar_url", .str (github_avatar_url username)) ]),
         (S "repos", .arr []) ]

/-- The whole step 1 of the pipeline: run the retry loop from a fresh state
and substitute the basic profile if no data was extracted. -/
def fetch_profile_with_fallback (attempts : List ExtractOutcome) (username : List Char) :
    Json × List RetryEvent :=
  let res := profile_fetch_loop attempts 0 none []
  (res.1.getD (basic_profile username), res.2)

/-! ### app.py lines 230-239 / main.py lines 254-264: skills from the
language histogram

Both files derive skills with the same expression:
`[\x7b"name": lang, "level": min(count * 20, 100)\x7d for lang, count in
sorted(hist.items(), key=lambda x: x[1], reverse=True)]`.
`sorted(..., reverse=True)` is a stable descending sort, embedded here as a
stable insertion sort that places each element before the first list entry
whose key is not larger. -/

/-- One step of the stable descending insertion sort. -/
def insortDesc {α : Type} (key : α → Nat) (x : α) : List α → List α
  | [] => [x]
  | y :: ys => if key y ≤ key x then x :: y :: ys else y :: insortDesc key x ys

/-- Python `sorted(l, key=key, reverse=True)`: stable, descending by key. -/
def pySortedDesc {α : Type} (key : α → Nat) (l : List α) : List α :=
  l.foldr (insortDesc key) []

/-- A derived skill entry. -/
structure Skill where
  name : List Char
  level : Nat
deriving DecidableEq, Repr

/-- Skills from a language-occurrence histogram (the histogram is a Python
dict, i.e. an association list in first-seen key order). -/
def skills_from_histogram (hist : List (List Char × Nat)) : List Skill :=
  (pySortedDesc (fun p => p.2) hist).map (fun p => { name := p.1, level := min (p.2 * 20) 100 })

/-! ### app.py lines 279-338: website generation, extraction and fallback -/

-- app.py lines 366-392: replacement text for </body>
def script_block : List Char := S "\n                        <script>\n                            // Dark/Light mode toggle\n                            function toggleDarkMode() \x7b\n                                document.body.classList.toggle('dark-mode');\n                                localStorage.setItem('darkMode', document.body.classList.contains('dark-mode'));\n                            \x7d\n                            \n                            // Check for saved dark mode preference\n                            document.addEventListener('DOMContentLoaded', function() \x7b\n                                if (localStorage.getItem('darkMode') === 'true') \x7b\n                                    document.body.classList.add('dark-mode');\n                                \x7d\n                                \n                                // Add animation to project cards\n                                const cards = document.querySelectorAll('.repo-card');\n                                cards.forEach(card => \x7b\n                                    card.addEventListener('mouseenter', function() \x7b\n                                        this.style.transform = 'translateY(-10px)';\n                                    \x7d);\n                                    card.addEventListener('mouseleave', function() \x7b\n                                        this.style.transform = 'translateY(0)';\n                                    \x7d);\n                                \x7d);\n                            \x7d);\n                        </script>\n                        </body>"

-- app.py lines 396-398: replacement text for </head>
def fa_link_block : List Char := S "\n                        <link rel=\"stylesheet\" href=\"https://cdnjs.cloudflare.com/ajax/libs/font-awesome/6.4.0/css/all.min.css\">\n                        </head>"

-- app.py lines 402-404: replacement text for <head> (function of username)
def meta_block (username : List Char) : List Char :=
  S "<head>\n                        <meta name=\"description\" content=\"Portfolio website for GitHub user " ++ username ++ S "\">\n                        <meta name=\"keywords\" content=\"portfolio, github, developer, " ++ username ++ S "\">"

-- app.py lines 314-338: fallback HTML template (f-string of username and bio)
def fallback_template (username bio : List Char) : List Char :=
  S "<!DOCTYPE html>\n<html lang=\"en\">\n<head>\n    <meta charset=\"UTF-8\">\n    <meta name=\"viewport\" content=\"width=device-width, initial-scale=1.0\">\n    <title>" ++ username ++ S " - Portfolio</title>\n    <style>\n        body \x7b font-family: sans-serif; max-width: 800px; margin: 0 auto; padding: 20px; \x7d\n        h1 \x7b color: #0366d6; \x7d\n        .profile \x7b display: flex; align-items: center; gap: 20px; margin-bottom: 30px; \x7d\n        .profile img \x7b width: 100px; height: 100px; border-radius: 50%; \x7d\n    </style>\n</head>\n<body>\n    <div class=\"profile\">\n        <img src=\"https://github.com/" ++ username ++ S ".png\" alt=\"" ++ username ++ S "\">\n        <div>\n            <h1>" ++ username ++ S "</h1>\n            <p>" ++ bio ++ S "</p>\n        </div>\n    </div>\n    <h2>GitHub Profile</h2>\n    <p><a href=\"https://github.com/" ++ username ++ S "\" target=\"_blank\">View on GitHub</a></p>\n</body>\n</html>"

/-- app.py lines 292-304: extract HTML from the generation response.  A
fenced block is taken verbatim with no validation; otherwise the whole
response is used only if it looks like HTML, else a `ValueError` is raised
(`none`) and the attempt fails. -/
def extract_generated_html (resp : List Char) : Option (List Char) :=
  match fencedBody (S "html") resp with
  | some body => some body
  | none =>
    if (S "<!DOCTYPE html>").isPrefixOf (pyStrip resp) || (S "<html").isPrefixOf (pyStrip resp)
        || containsLC resp (S "<body") then some resp
    else none

/-- app.py lines 344-361: process the repair agent's response; on a fenced
block take its body, on a raw HTML-looking response take it whole, otherwise
(including the exception path) keep the current HTML. -/
def apply_repair_response (html resp : List Char) : List Char :=
  match fencedBody (S "html") resp with
  | some body => body
  | none =>
    if (S "<!DOCTYPE html>").isPrefixOf (pyStrip resp) || (S "<html").isPrefixOf (pyStrip resp)
    then resp else html

/-- app.py lines 363-404: the final post-processing pass over the HTML
string (add a script before `</body>` when no `<script` is present, a Font
Awesome stylesheet link before `</head>` when no `font-awesome|fontawesome`
matches, and meta tags after `<head>` when no description meta is present). -/
def replace_if_absent (present : Bool) (s pat rep : List Char) : List Char :=
  if present then s else pyReplace s pat rep

def post_process (username html : List Char) : List Char :=
  let h1 := replace_if_absent (containsCI html (S "<script")) html (S "</body>") script_block
  let h2 := replace_if_absent
    (containsCI h1 (S "font-awesome") || containsCI h1 (S "fontawesome")) h1
    (S "</head>") fa_link_block
  replace_if_absent (containsCI h2 (S "<meta name=\"description\"")) h2
    (S "<head>") (meta_block username)

/-- The portfolio turn's final artifact as a function of the HTML extracted
in step 3 and the repair agent's textual response in step 4 (app.py lines
340-409): the repaired HTML after post-processing, which is stored on the
conversation state and saved to disk. -/
def pipeline_final_html (username generatedHtml repairResp : List Char) : List Char :=
  post_process username (apply_repair_response generatedHtml repairResp)

/-! ## Embedding of `src/main.py`: the portfolio renderer
(`generate_portfolio_website`, lines 220-834)

Two module-level facts decide what a call can ever observe:

* The renderer's big HTML template (lines 734-830) is an f-string whose
  `<script>` section uses single (unescaped) braces, so its JavaScript
  statement blocks become replacement fields.  A Python replacement field
  must be an expression, and no Python expression contains a top-level
  semicolon outside string quotes; these fields do (for example
  `document.body.classList.toggle('dark-mode');`), so `main.py` fails to
  parse -- `python3 -m py_compile main.py` reports `SyntaxError: f-string:
  invalid syntax` at line 803 on CPython 3.11.  This is checked below by
  extracting the replacement fields of the raw template text and testing the
  necessary condition.
* `datetime` is never imported at main.py lines 1-20, while the footer field
  evaluates `datetime.datetime.now().year`; so even with the braces escaped
  every call would raise `NameError` when assembling the template.

The data shaping and template text are embedded as written, so that the
per-step claims about cards, skills and conditional blocks can still be
checked against the code. -/

-- The RAW source text of the renderer template f-string (main.py lines
-- 734-830), exactly as written between the f""" quotes, is defined below as
-- `renderer_template_raw`: the concatenation, in source order, of the 22
-- verbatim text runs `tmplSeg0`-`tmplSeg21` and the 21 replacement fields
-- (each wrapped in its braces).  The source text has no doubled-brace
-- escapes, so every text run is brace-free and every brace in the source
-- delimits one of the 21 fields.

/-- One step of the CPython f-string field scanner: collect a replacement
field up to its closing brace, tracking quotes and bracket nesting. -/
def grabFSField (q0 : Option Char) : Nat → List Char → Nat → Option Char → List Char →
    Option (List Char × List Char)
  | 0, _, _, _, _ => none
  | _+1, [], _, _, _ => none
  | fuel+1, c :: cs, depth, quote, acc =>
    match quote with
    | some q => grabFSField q0 fuel cs depth (if c == q then none else some q) (c :: acc)
    | none =>
      if c == squote || c == '"' then grabFSField q0 fuel cs depth (some c) (c :: acc)
      else if c == braceL || c == '(' || c == '[' then
        grabFSField q0 fuel cs (depth + 1) none (c :: acc)
      else if c == braceR then
        (if depth == 0 then some (acc.reverse, cs) else grabFSField q0 fuel cs (depth - 1) none (c :: acc))
      else if c == ')' || c == ']' then grabFSField q0 fuel cs (depth - 1) none (c :: acc)
      else grabFSField q0 fuel cs depth none (c :: acc)

/-- Collect the replacement fields of an f-string body (`\x7b\x7b` and
`\x7d\x7d` are escapes; a lone closing brace is a syntax error, `none`). -/
def collectFSFields : Nat → List Char → Option (List (List Char))
  | 0, _ => none
  | _+1, [] => some []
  | fuel+1, c :: cs =>
    if c == braceL then
      match cs with
      | [] => none
      | c2 :: cs2 =>
        if c2 == braceL then collectFSFields fuel cs2
        else
          match grabFSField none fuel cs 0 none [] with
          | some p => (collectFSFields fuel p.2).map (fun l => p.1 :: l)
          | none => none
    else if c == braceR then
      match cs with
      | [] => none
      | c2 :: cs2 => if c2 == braceR then collectFSFields fuel cs2 else none
    else collectFSFields fuel cs

/-- Does the text contain a semicolon outside string quotes?  No Python
expression does, so a replacement field with one is a `SyntaxError`. -/
def bareSemicolonAux : List Char → Option Char → Bool
  | [], _ => false
  | c :: cs, some q => bareSemicolonAux cs (if c == q then none else some q)
  | c :: cs, none =>
    if c == squote || c == '"' then bareSemicolonAux cs (some c)
    else if c == ';' then true
    else bareSemicolonAux cs none

/-- A replacement field passes this necessary condition of being a Python
expression iff it has no top-level semicolon. -/
def field_plausible_expr (field : List Char) : Bool := !(bareSemicolonAux field none)

/-- The state machine of `grabFSField` run without consuming fuel or building
output: step the (nesting depth, quote) state over a chunk of field text,
returning `none` if the scan would stop inside the chunk (an unnested,
unquoted closing brace). -/
def grabSim : List Char → Nat → Option Char → Option (Nat × Option Char)
  | [], depth, quote => some (depth, quote)
  | c :: cs, depth, some q => grabSim cs depth (if c == q then none else some q)
  | c :: cs, depth, none =>
    if c == squote || c == '"' then grabSim cs depth (some c)
    else if c == braceL || c == '(' || c == '[' then grabSim cs (depth + 1) none
    else if c == braceR then
      (if depth == 0 then none else grabSim cs (depth - 1) none)
    else if c == ')' || c == ']' then grabSim cs (depth - 1) none
    else grabSim cs depth none

/-- A chunk of f-string text with no brace at all: the field collector
passes straight over it. -/
def noBraceChunk (cs : List Char) : Bool :=
  cs.all (fun c => !(c == braceL) && !(c == braceR))

/-- A chunk of field text that the scanner grabs whole: it does not start
with a second opening brace (which would be an escape) and running the
scanner state machine over it from the initial state ends back in the
initial state without stopping early. -/
def fieldTokOk (fld : List Char) : Bool :=
  (match fld with | [] => false | c :: _ => !(c == braceL)) &&
  decide (grabSim fld 0 none = some (0, none))

/-- A token of f-string source text: a literal text run or a braced
replacement field. -/
inductive FSTok where
  | text (cs : List Char)
  | field (fld : List Char)

/-- The source text a token list denotes (fields get their braces back). -/
def toksFlatten : List FSTok → List Char
  | [] => []
  | .text cs :: ts => cs ++ toksFlatten ts
  | .field fld :: ts => braceL :: (fld ++ (braceR :: toksFlatten ts))

/-- The replacement fields of a token list, in order. -/
def toksFields : List FSTok → List (List Char)
  | [] => []
  | .text _ :: ts => toksFields ts
  | .field fld :: ts => fld :: toksFields ts

/-- Every text token is brace-free and every field token is grabbed whole. -/
def toksOk : List FSTok → Bool
  | [] => true
  | .text cs :: ts => noBraceChunk cs && toksOk ts
  | .field fld :: ts => fieldTokOk fld && toksOk ts

/-- Enough fuel for `collectFSFields` to consume the token list. -/
def toksFuel : List FSTok → Nat
  | [] => 1
  | .text cs :: ts => cs.length + toksFuel ts
  | .field fld :: ts => fld.length + 2 + toksFuel ts

/-- The names bound at top level by main.py's imports (lines 1-20:
`asyncio, os, re`, `dataclass`, the typing names, `logfire`, `debug`,
`AsyncClient`, the pydantic_ai names, `load_dotenv`, `html` (from
`import html.parser`) and `BeautifulSoup`). -/
def main_module_imports : List (List Char) :=
  [S "asyncio", S "os", S "re", S "dataclass", S "Any", S "List", S "Dict", S "Optional",
   S "logfire", S "debug", S "AsyncClient", S "Agent", S "ModelRetry", S "RunContext",
   S "load_dotenv", S "html", S "BeautifulSoup"]

/-- Is the name `datetime` bound when the template's footer field
`datetime.datetime.now().year` is evaluated? -/
def datetime_is_bound : Bool := main_module_imports.any (fun n => n == S "datetime")

/-- How a call into main.py fails. -/
inductive PyError where
  | syntaxErrorAtImport
  | nameError
deriving DecidableEq, Repr

/-! ### The renderer's data model (dicts produced by `fetch_github_profile`,
lines 194-217, and by the enrichment loop in app.py) -/

/-- The profile dict as produced by `fetch_github_profile` (lines 195-205).
An absent optional key is represented by the default value that
`profile.get(key, default)` would substitute. -/
structure Profile where
  name : List Char := []
  bio : List Char := []
  avatar_url : List Char := []
  location : List Char := []
  blog : List Char := []
  twitter : List Char := []
  followers : Nat := 0
  following : Nat := 0
  public_repos : Nat := 0
deriving Repr

/-- Python `profile.get(key, default)` for the string-valued keys.  Note the
produced dict stores the handle under the key `twitter` (line 201); a lookup
of `twitter_username` therefore always returns the default. -/
def Profile.get (p : Profile) (key : List Char) (dflt : List Char) : List Char :=
  if key = S "name" then p.name
  else if key = S "bio" then p.bio
  else if key = S "avatar_url" then p.avatar_url
  else if key = S "location" then p.location
  else if key = S "blog" then p.blog
  else if key = S "twitter" then p.twitter
  else dflt

/-- A repository dict.  `fetch_github_profile` populates `name, description,
language, stars, forks, url` (lines 206-216); the enrichment loop may add
`detailed_description`, and model responses may carry
`stargazers_count`/`forks_count`/`html_url`.  An absent key is represented by
the (falsy) default that the renderer's `.get(key, 0)` / `.get(key, '')`
lookups substitute. -/
structure Repo where
  name : List Char := []
  description : List Char := []
  language : List Char := []
  stars : Nat := 0
  forks : Nat := 0
  url : List Char := []
  stargazers_count : Nat := 0
  forks_count : Nat := 0
  html_url : List Char := []
  detailed_description : List Char := []
deriving Repr

/-- The payload handed to `generate_portfolio_website` (app.py sets
`profile_data["skills"]`, line 244). -/
structure ProfileData where
  profile : Profile
  repos : List Repo := []
  skills : List Skill := []
deriving Repr

/-- main.py lines 166/249: `x.get('stargazers_count', 0) or x.get('stars', 0)`
(Python `or` takes the second operand when the first is falsy, i.e. zero). -/
def repoStarKey (r : Repo) : Nat :=
  if r.stargazers_count ≠ 0 then r.stargazers_count else r.stars

/-- main.py lines 279-295: the fixed language colour table. -/
def language_colors : List (List Char × List Char) :=
  [(S "JavaScript", S "#f1e05a"), (S "TypeScript", S "#2b7489"), (S "Python", S "#3572A5"),
   (S "Java", S "#b07219"), (S "C#", S "#178600"), (S "PHP", S "#4F5D95"),
   (S "C++", S "#f34b7d"), (S "Ruby", S "#701516"), (S "Go", S "#00ADD8"),
   (S "Swift", S "#ffac45"), (S "Kotlin", S "#F18E33"), (S "Rust", S "#dea584"),
   (S "HTML", S "#e34c26"), (S "CSS", S "#563d7c"), (S "Shell", S "#89e051")]

/-- `language_colors.get(language, '#888')`. -/
def lang_color (language : List Char) : List Char :=
  match language_colors.lookup language with
  | some c => c
  | none => S "#888"

/-- main.py lines 255-261: accumulate the language histogram (a Python dict:
counts update in place, new keys append in first-seen order). -/
def histAdd (hist : List (List Char × Nat)) (lang : List Char) : List (List Char × Nat) :=
  if hist.any (fun p => p.1 == lang) then
    hist.map (fun p => if p.1 == lang then (p.1, p.2 + 1) else p)
  else hist ++ [(lang, 1)]

/-- The histogram over a repository list (repos with a falsy `language` are
skipped). -/
def language_histogram (repos : List Repo) : List (List Char × Nat) :=
  repos.foldl (fun hist r => if r.language.isEmpty then hist else histAdd hist r.language) []

-- main.py lines 298-680: the renderer CSS literal (colors dict already interpolated)
def renderer_css : List Char := S "\n        :root \x7b\n            --primary: #0366d6;\n            --secondary: #6f42c1;\n            --dark: #24292e;\n            --light: #f6f8fa;\n            --accent: #28a745;\n            --text: #24292e;\n            --text-light: #6a737d;\n            --border: #e1e4e8;\n            --transition: all 0.3s ease;\n            --shadow: 0 4px 6px rgba(0, 0, 0, 0.1);\n            --radius: 8px;\n        \x7d\n        \n        /* Base Styles */\n        * \x7b\n            margin: 0;\n            padding: 0;\n            box-sizing: border-box;\n        \x7d\n        \n        body \x7b\n            font-family: -apple-system, BlinkMacSystemFont, 'Segoe UI', Roboto, Oxygen, Ubuntu, Cantarell, 'Open Sans', 'Helvetica Neue', sans-serif;\n            line-height: 1.6;\n            color: var(--text);\n            background-color: var(--light);\n            transition: var(--transition);\n        \x7d\n        \n        /* Dark Mode */\n        body.dark-mode \x7b\n            --light: #0d1117;\n            --dark: #c9d1d9;\n            --text: #f0f6fc;\n            --text-light: #8b949e;\n            --border: #30363d;\n            color: var(--text);\n        \x7d\n        \n        .container \x7b\n            width: 100%;\n            max-width: 1200px;\n            margin: 0 auto;\n            padding: 0 20px;\n        \x7d\n        \n        a \x7b\n            color: var(--primary);\n            text-decoration: none;\n            transition: var(--transition);\n        \x7d\n        \n        a:hover \x7b\n            color: var(--secondary);\n        \x7d\n        \n        /* Header Styles */\n        header \x7b\n            background-color: var(--primary);\n            color: white;\n            padding: 60px 0;\n            position: relative;\n            overflow: hidden;\n        \x7d\n        \n        header::before \x7b\n            content: '';\n            position: absolute;\n            top: 0;\n            left: 0;\n            width: 100%;\n            height: 100%;\n            background: linear-gradient(135deg, var(--primary) 0%, var(--secondary) 100%);\n            opacity: 0.9;\n            z-index: 1;\n        \x7d\n        \n        .header-content \x7b\n            position: relative;\n            z-index: 2;\n            display: flex;\n            align-items: center;\n            gap: 40px;\n        \x7d\n        \n        .profile-image \x7b\n            width: 150px;\n            height: 150px;\n            border-radius: 50%;\n            border: 5px solid white;\n            box-shadow: var(--shadow);\n            transition: var(--transition);\n            object-fit: cover;\n        \x7d\n        \n        .profile-image:hover \x7b\n            transform: scale(1.05);\n        \x7d\n        \n        .profile-info \x7b\n            flex: 1;\n        \x7d\n        \n        .profile-info h1 \x7b\n            font-size: 2.5rem;\n            margin-bottom: 10px;\n        \x7d\n        \n        .profile-bio \x7b\n            font-size: 1.2rem;\n            margin-bottom: 20px;\n            opacity: 0.9;\n        \x7d\n        \n        .contact-info \x7b\n            display: flex;\n            flex-wrap: wrap;\n            gap: 15px;\n        \x7d\n        \n        .contact-item \x7b\n            display: flex;\n            align-items: center;\n            gap: 5px;\n            background-color: rgba(255, 255, 255, 0.2);\n            padding: 5px 10px;\n            border-radius: 20px;\n            font-size: 0.9rem;\n        \x7d\n        \n        .contact-item i \x7b\n            font-size: 1rem;\n        \x7d\n        \n        .contact-item a \x7b\n            color: white;\n        \x7d\n        \n        .contact-item a:hover \x7b\n            text-decoration: underline;\n        \x7d\n        \n        .theme-toggle \x7b\n            position: absolute;\n            top: 20px;\n            right: 20px;\n            background: rgba(255, 255, 255, 0.2);\n            border: none;\n            color: white;\n            width: 40px;\n            height: 40px;\n            border-radius: 50%;\n            display: flex;\n            align-items: center;\n            justify-content: center;\n            cursor: pointer;\n            transition: var(--transition);\n            z-index: 10;\n        \x7d\n        \n        .theme-toggle:hover \x7b\n            background: rgba(255, 255, 255, 0.3);\n            transform: rotate(15deg);\n        \x7d\n        \n        /* Section Styles */\n        section \x7b\n            padding: 60px 0;\n        \x7d\n        \n        .section-title \x7b\n            font-size: 2rem;\n            margin-bottom: 40px;\n            text-align: center;\n            position: relative;\n        \x7d\n        \n        .section-title::after \x7b\n            content: '';\n            position: absolute;\n            bottom: -10px;\n            left: 50%;\n            transform: translateX(-50%);\n            width: 60px;\n            height: 4px;\n            background-color: var(--primary);\n            border-radius: 2px;\n        \x7d\n        \n        /* Skills Section */\n        .skills-grid \x7b\n            display: grid;\n            grid-template-columns: repeat(auto-fill, minmax(250px, 1fr));\n            gap: 20px;\n        \x7d\n        \n        .skill-item \x7b\n            background-color: white;\n            border-radius: var(--radius);\n            padding: 20px;\n            box-shadow: var(--shadow);\n            transition: var(--transition);\n            opacity: 0;\n            transform: translateY(20px);\n        \x7d\n        \n        .dark-mode .skill-item \x7b\n            background-color: #1a1f24;\n        \x7d\n        \n        .skill-item.animated \x7b\n            opacity: 1;\n            transform: translateY(0);\n        \x7d\n        \n        .skill-item:hover \x7b\n            transform: translateY(-5px);\n            box-shadow: 0 6px 12px rgba(0, 0, 0, 0.15);\n        \x7d\n        \n        .skill-name \x7b\n            font-weight: bold;\n            margin-bottom: 10px;\n            display: flex;\n            align-items: center;\n            gap: 8px;\n        \x7d\n        \n        .language-dot \x7b\n            width: 12px;\n            height: 12px;\n            border-radius: 50%;\n            display: inline-block;\n        \x7d\n        \n        .skill-bar \x7b\n            height: 10px;\n            background-color: var(--border);\n            border-radius: 5px;\n            overflow: hidden;\n        \x7d\n        \n        .skill-progress \x7b\n            height: 100%;\n            background-color: var(--primary);\n            border-radius: 5px;\n            transition: width 1s ease-in-out;\n        \x7d\n        \n        /* Repositories Section */\n        .repos-grid \x7b\n            display: grid;\n            grid-template-columns: repeat(auto-fill, minmax(300px, 1fr));\n            gap: 30px;\n        \x7d\n        \n        .repo-card \x7b\n            background-color: white;\n            border-radius: var(--radius);\n            padding: 25px;\n            box-shadow: var(--shadow);\n            transition: var(--transition);\n            border: 1px solid var(--border);\n            height: 100%;\n            display: flex;\n            flex-direction: column;\n            opacity: 0;\n            transform: translateY(20px);\n        \x7d\n        \n        .dark-mode .repo-card \x7b\n            background-color: #1a1f24;\n        \x7d\n        \n        .repo-card.animated \x7b\n            opacity: 1;\n            transform: translateY(0);\n        \x7d\n        \n        .repo-card:hover \x7b\n            transform: translateY(-10px);\n            box-shadow: 0 10px 20px rgba(0, 0, 0, 0.1);\n        \x7d\n        \n        .repo-name \x7b\n            font-size: 1.3rem;\n            margin-bottom: 10px;\n            color: var(--primary);\n        \x7d\n        \n        .repo-description \x7b\n            margin-bottom: 15px;\n            flex-grow: 1;\n            color: var(--text-light);\n        \x7d\n        \n        .repo-meta \x7b\n            display: flex;\n            justify-content: space-between;\n            margin-bottom: 20px;\n            font-size: 0.9rem;\n            color: var(--text-light);\n        \x7d\n        \n        .repo-language \x7b\n            display: flex;\n            align-items: center;\n            gap: 5px;\n        \x7d\n        \n        .repo-link \x7b\n            display: inline-block;\n            padding: 8px 16px;\n            background-color: var(--primary);\n            color: white;\n            border-radius: 4px;\n            text-align: center;\n            transition: var(--transition);\n        \x7d\n        \n        .repo-link:hover \x7b\n            background-color: var(--secondary);\n            color: white;\n        \x7d\n        \n        /* Footer */\n        footer \x7b\n            background-color: var(--dark);\n            color: white;\n            padding: 30px 0;\n            text-align: center;\n        \x7d\n        \n        .footer-content \x7b\n            display: flex;\n            flex-direction: column;\n            align-items: center;\n            gap: 15px;\n        \x7d\n        \n        .social-links \x7b\n            display: flex;\n            gap: 15px;\n        \x7d\n        \n        .social-link \x7b\n            width: 40px;\n            height: 40px;\n            border-radius: 50%;\n            background-color: rgba(255, 255, 255, 0.1);\n            display: flex;\n            align-items: center;\n            justify-content: center;\n            color: white;\n            transition: var(--transition);\n        \x7d\n        \n        .social-link:hover \x7b\n            background-color: var(--primary);\n            transform: translateY(-3px);\n        \x7d\n        \n        /* Responsive Design */\n        @media (max-width: 768px) \x7b\n            .header-content \x7b\n                flex-direction: column;\n                text-align: center;\n            \x7d\n            \n            .contact-info \x7b\n                justify-content: center;\n            \x7d\n            \n            .section-title \x7b\n                font-size: 1.8rem;\n            \x7d\n            \n            .repos-grid \x7b\n                grid-template-columns: 1fr;\n            \x7d\n        \x7d\n    "

-- main.py lines 689-699: one skill block (f-string of lang_color, skill_name, skill_level)
def skill_block (langColor skillName skillLevel : List Char) : List Char :=
  S "\n        <div class=\"skill-item\">\n            <div class=\"skill-name\">\n                <span class=\"language-dot\" style=\"background-color: " ++ langColor ++ S "\"></span>\n                " ++ skillName ++ S "\n            </div>\n            <div class=\"skill-bar\">\n                <div class=\"skill-progress\" style=\"width: " ++ skillLevel ++ S "%\"></div>\n            </div>\n        </div>\n        "

/-- main.py lines 683-699: the skills section body. -/
def skillsHtml (skills : List Skill) : List Char :=
  (skills.map (fun sk => skill_block (lang_color sk.name) sk.name (natLC sk.level))).flatten

def cardSeg0 : List Char := S "\n        <div class=\"repo-card\">\n            <h3 class=\"repo-name\">"

def cardSeg1 : List Char := S "</h3>\n            <p class=\"repo-description\">"

def cardSeg2 : List Char := S "</p>\n            "

def cardSeg3 : List Char := S "\n            <div class=\"repo-meta\">\n                "

def cardSeg4 : List Char := S "\n                <div><i class=\"fas fa-star\"></i> "

def cardSeg5 : List Char := S "</div>\n                <div><i class=\"fas fa-code-branch\"></i> "

def cardSeg6 : List Char := S "</div>\n            </div>\n            <a href=\""

def cardSeg7 : List Char := S "\" class=\"repo-link\" target=\"_blank\">View Repository</a>\n        </div>\n        "


/-- main.py line 723: the optional detailed-description line. -/
def detailed_desc_part (dd : List Char) : List Char :=
  if dd.isEmpty then [] else S "<p><small>" ++ dd ++ S "</small></p>"

/-- main.py line 725: the optional language line of a card. -/
def repo_language_part (language : List Char) : List Char :=
  if language.isEmpty then []
  else S "<div class=\"repo-language\"><span class=\"language-dot\" style=\"background-color: "
    ++ lang_color language ++ S "\"></span> " ++ language ++ S "</div>"

/-- main.py lines 703-731: one repository card. -/
def repo_card (name : List Char) (r : Repo) : List Char :=
  let repoName := r.name
  let description := if r.description.isEmpty then r.detailed_description else r.description
  let language := r.language
  let stars := if r.stargazers_count ≠ 0 then r.stargazers_count else r.stars
  let forks := if r.forks_count ≠ 0 then r.forks_count else r.forks
  let url := if r.html_url.isEmpty then S "https://github.com/" ++ name ++ S "/" ++ repoName
             else r.html_url
  let detailedDesc := if r.detailed_description == description then [] else r.detailed_description
  cardSeg0 ++ repoName ++ cardSeg1 ++ description ++ cardSeg2 ++ detailed_desc_part detailedDesc
    ++ cardSeg3 ++ repo_language_part language ++ cardSeg4 ++ natLC stars ++ cardSeg5
    ++ natLC forks ++ cardSeg6 ++ url ++ cardSeg7

/-- main.py line 703: `for repo in repos[:6]` over the star-sorted list --
the list of card strings, one per shown repository. -/
def repo_card_blocks (name : List Char) (sortedRepos : List Repo) : List (List Char) :=
  (sortedRepos.take 6).map (repo_card name)

/-- main.py lines 702-731: the projects section body. -/
def reposHtml (name : List Char) (sortedRepos : List Repo) : List Char :=
  (repo_card_blocks name sortedRepos).flatten

def tmplSeg0 : List Char := S "<!DOCTYPE html>\n<html lang=\"en\">\n<head>\n    <meta charset=\"UTF-8\">\n    <meta name=\"viewport\" content=\"width=device-width, initial-scale=1.0\">\n    <meta name=\"description\" content=\"Portfolio website for "

def tmplSeg1 : List Char := S " - GitHub Developer\">\n    <meta name=\"keywords\" content=\"portfolio, github, developer, "

def tmplSeg2 : List Char := S "\">\n    <title>"

def tmplSeg3 : List Char := S " - Portfolio</title>\n    <link rel=\"stylesheet\" href=\"https://cdnjs.cloudflare.com/ajax/libs/font-awesome/6.4.0/css/all.min.css\">\n    <style>"

def tmplSeg4 : List Char := S "</style>\n</head>\n<body>\n    <button class=\"theme-toggle\" onclick=\"toggleDarkMode()\">\n        <i class=\"fas fa-moon\"></i>\n    </button>\n    \n    <header>\n        <div class=\"container\">\n            <div class=\"header-content\">\n                <img src=\""

def tmplSeg5 : List Char := S "\" alt=\""

def tmplSeg6 : List Char := S "\" class=\"profile-image\">\n                <div class=\"profile-info\">\n                    <h1>"

def tmplSeg7 : List Char := S "</h1>\n                    <p class=\"profile-bio\">"

def tmplSeg8 : List Char := S "</p>\n                    <div class=\"contact-info\">\n                        "

def tmplSeg9 : List Char := S "\n                        "

def tmplSeg10 : List Char := S "\n                        "

def tmplSeg11 : List Char := S "\n                        <div class=\"contact-item\"><i class=\"fab fa-github\"></i> <a href=\"https://github.com/"

def tmplSeg12 : List Char := S "\" target=\"_blank\">GitHub</a></div>\n                    </div>\n                </div>\n            </div>\n        </div>\n    </header>\n    \n    <section id=\"skills\">\n        <div class=\"container\">\n            <h2 class=\"section-title\">Skills</h2>\n            <div class=\"skills-grid\">\n                "

def tmplSeg13 : List Char := S "\n            </div>\n        </div>\n    </section>\n    \n    <section id=\"projects\">\n        <div class=\"container\">\n            <h2 class=\"section-title\">Featured Projects</h2>\n            <div class=\"repos-grid\">\n                "

def tmplSeg14 : List Char := S "\n            </div>\n        </div>\n    </section>\n    \n    <footer>\n        <div class=\"container\">\n            <div class=\"footer-content\">\n                <p>&copy; "

def tmplSeg15 : List Char := S " "

def tmplSeg16 : List Char := S " - GitHub Portfolio</p>\n                <div class=\"social-links\">\n                    <a href=\"https://github.com/"

def tmplSeg17 : List Char := S "\" class=\"social-link\" target=\"_blank\">\n                        <i class=\"fab fa-github\"></i>\n                    </a>\n                    "

def tmplSeg18 : List Char := S "\n                    "

def tmplSeg19 : List Char := S "\n                </div>\n            </div>\n        </div>\n    </footer>\n    \n    <script>\n        function toggleDarkMode() "

def tmplSeg20 : List Char := S "\n        \n        // Check for saved dark mode preference\n        document.addEventListener('DOMContentLoaded', function() "

def tmplSeg21 : List Char := S ");\n    </script>\n</body>\n</html>"


def js_field_1 : List Char := S "\n            document.body.classList.toggle('dark-mode');\n            const icon = document.querySelector('.theme-toggle i');\n            if (document.body.classList.contains('dark-mode')) \x7b\n                icon.className = 'fas fa-sun';\n            \x7d else \x7b\n                icon.className = 'fas fa-moon';\n            \x7d\n            localStorage.setItem('darkMode', document.body.classList.contains('dark-mode'));\n        "

def js_field_2 : List Char := S "\n            if (localStorage.getItem('darkMode') === 'true') \x7b\n                document.body.classList.add('dark-mode');\n                document.querySelector('.theme-toggle i').className = 'fas fa-sun';\n            \x7d\n            \n            // Add animation classes with delay\n            const elements = document.querySelectorAll('.skill-item, .repo-card');\n            elements.forEach((el, index) => \x7b\n                setTimeout(() => \x7b\n                    el.classList.add('animated');\n                \x7d, 100 + (index * 50));\n            \x7d);\n        "

/-! The remaining replacement fields of the template f-string, verbatim. -/

def fld_name : List Char := S "name"

def fld_css : List Char := S "css"

def fld_avatar_url : List Char := S "avatar_url"

def fld_bio : List Char := S "bio"

def fld_cond_location : List Char := S "f'<div class=\"contact-item\"><i class=\"fas fa-map-marker-alt\"></i> \x7blocation\x7d</div>' if location else ''"

def fld_cond_blog : List Char := S "f'<div class=\"contact-item\"><i class=\"fas fa-globe\"></i> <a href=\"\x7bblog\x7d\" target=\"_blank\">\x7bblog\x7d</a></div>' if blog else ''"

def fld_cond_twitter : List Char := S "f'<div class=\"contact-item\"><i class=\"fab fa-twitter\"></i> <a href=\"https://twitter.com/\x7btwitter\x7d\" target=\"_blank\">@\x7btwitter\x7d</a></div>' if twitter else ''"

def fld_skills : List Char := S "skills_html if skills_html else '<p>No skills data available</p>'"

def fld_repos : List Char := S "repos_html if repos_html else '<p>No repositories available</p>'"

def fld_year : List Char := S "datetime.datetime.now().year"

def fld_footer_twitter : List Char := S "f'<a href=\"https://twitter.com/\x7btwitter\x7d\" class=\"social-link\" target=\"_blank\"><i class=\"fab fa-twitter\"></i></a>' if twitter else ''"

def fld_footer_blog : List Char := S "f'<a href=\"\x7bblog\x7d\" class=\"social-link\" target=\"_blank\"><i class=\"fas fa-globe\"></i></a>' if blog else ''"

/-- main.py lines 734-830, tokenised: the raw template f-string source is
the 22 text runs interleaved with the 21 braced replacement fields, in
source order. -/
def renderer_template_tokens : List FSTok :=
  [.text tmplSeg0, .field fld_name, .text tmplSeg1, .field fld_name,
   .text tmplSeg2, .field fld_name, .text tmplSeg3, .field fld_css,
   .text tmplSeg4, .field fld_avatar_url, .text tmplSeg5, .field fld_name,
   .text tmplSeg6, .field fld_name, .text tmplSeg7, .field fld_bio,
   .text tmplSeg8, .field fld_cond_location, .text tmplSeg9, .field fld_cond_blog,
   .text tmplSeg10, .field fld_cond_twitter, .text tmplSeg11, .field fld_name,
   .text tmplSeg12, .field fld_skills, .text tmplSeg13, .field fld_repos,
   .text tmplSeg14, .field fld_year, .text tmplSeg15, .field fld_name,
   .text tmplSeg16, .field fld_name, .text tmplSeg17, .field fld_footer_twitter,
   .text tmplSeg18, .field fld_footer_blog, .text tmplSeg19, .field js_field_1,
   .text tmplSeg20, .field js_field_2, .text tmplSeg21]

/-- The RAW source text of the renderer template f-string, exactly as
written between the f""" quotes (no interpolation performed): the
concatenation of the verbatim text runs and braced fields above. -/
def renderer_template_raw : List Char := toksFlatten renderer_template_tokens

/-- Necessary condition for the renderer template f-string (and hence
main.py) to parse: every replacement field extracted from the raw template
text is a plausible expression. -/
def renderer_template_wf : Bool :=
  match collectFSFields (2 * renderer_template_raw.length + 4) renderer_template_raw with
  | some fields => fields.all field_plausible_expr
  | none => false

/-- Template line 758: the conditional location contact block. -/
def contact_location_part (location : List Char) : List Char :=
  if location.isEmpty then []
  else S "<div class=\"contact-item\"><i class=\"fas fa-map-marker-alt\"></i> " ++ location
    ++ S "</div>"

/-- Template line 759: the conditional blog contact block. -/
def contact_blog_part (blog : List Char) : List Char :=
  if blog.isEmpty then []
  else S "<div class=\"contact-item\"><i class=\"fas fa-globe\"></i> <a href=\"" ++ blog
    ++ S "\" target=\"_blank\">" ++ blog ++ S "</a></div>"

/-- Template line 760: the conditional twitter contact block. -/
def contact_twitter_part (twitter : List Char) : List Char :=
  if twitter.isEmpty then []
  else S "<div class=\"contact-item\"><i class=\"fab fa-twitter\"></i> <a href=\"https://twitter.com/"
    ++ twitter ++ S "\" target=\"_blank\">@" ++ twitter ++ S "</a></div>"

/-- Template line 794: the conditional twitter footer link. -/
def footer_twitter_part (twitter : List Char) : List Char :=
  if twitter.isEmpty then []
  else S "<a href=\"https://twitter.com/" ++ twitter
    ++ S "\" class=\"social-link\" target=\"_blank\"><i class=\"fab fa-twitter\"></i></a>"

/-- Template line 795: the conditional blog footer link. -/
def footer_blog_part (blog : List Char) : List Char :=
  if blog.isEmpty then []
  else S "<a href=\"" ++ blog
    ++ S "\" class=\"social-link\" target=\"_blank\"><i class=\"fas fa-globe\"></i></a>"

/-- Template line 772: skills grid body or placeholder. -/
def skills_section_part (sk : List Char) : List Char :=
  if sk.isEmpty then S "<p>No skills data available</p>" else sk

/-- Template line 781: projects grid body or placeholder. -/
def repos_section_part (rh : List Char) : List Char :=
  if rh.isEmpty then S "<p>No repositories available</p>" else rh

/-- The renderer's twitter variable, main.py line 244:
`profile.get('twitter_username', '')`. -/
def renderer_twitter (p : Profile) : List Char := Profile.get p (S "twitter_username") []

/-- main.py lines 254-264, inside the renderer: derive skills from the
(star-sorted) repositories when the payload carries none. -/
def renderer_skills (pd : ProfileData) : List Skill :=
  if pd.skills.isEmpty then
    skills_from_histogram (language_histogram (pySortedDesc repoStarKey pd.repos))
  else pd.skills

/-- The template text before the conditional contact blocks (fields 0-7:
name, css, avatar, bio). -/
def tmpl_chunk0 (pd : ProfileData) : List Char :=
  tmplSeg0 ++ Profile.get pd.profile (S "name") (S "GitHub User")
    ++ tmplSeg1 ++ Profile.get pd.profile (S "name") (S "GitHub User")
    ++ tmplSeg2 ++ Profile.get pd.profile (S "name") (S "GitHub User")
    ++ tmplSeg3 ++ renderer_css
    ++ tmplSeg4 ++ Profile.get pd.profile (S "avatar_url") []
    ++ tmplSeg5 ++ Profile.get pd.profile (S "name") (S "GitHub User")
    ++ tmplSeg6 ++ Profile.get pd.profile (S "name") (S "GitHub User")
    ++ tmplSeg7 ++ Profile.get pd.profile (S "bio") (S "Software Developer")
    ++ tmplSeg8

/-- The template text between the contact blocks and the footer's
conditional links (fields 11-16: github contact, skills, projects, year,
footer text and github link). -/
def tmpl_chunk1 (year : Nat) (pd : ProfileData) : List Char :=
  tmplSeg11 ++ Profile.get pd.profile (S "name") (S "GitHub User")
    ++ tmplSeg12 ++ skills_section_part (skillsHtml (renderer_skills pd))
    ++ tmplSeg13
    ++ repos_section_part
      (reposHtml (Profile.get pd.profile (S "name") (S "GitHub User"))
        (pySortedDesc repoStarKey pd.repos))
    ++ tmplSeg14 ++ natLC year
    ++ tmplSeg15 ++ Profile.get pd.profile (S "name") (S "GitHub User")
    ++ tmplSeg16 ++ Profile.get pd.profile (S "name") (S "GitHub User")
    ++ tmplSeg17

/-- The template text after the footer's conditional links: the script
section, with the two statement fields reinserted inside literal braces. -/
def tmpl_chunk2 : List Char :=
  tmplSeg19 ++ [braceL] ++ js_field_1 ++ [braceR]
    ++ tmplSeg20 ++ [braceL] ++ js_field_2 ++ [braceR] ++ tmplSeg21

/-- The document the template denotes (fields interpolated in source order;
the two JavaScript statement fields are reinserted verbatim inside literal
braces, which is the script text the template means to emit).  `year` stands
for `datetime.datetime.now().year`. -/
def assembled_template (year : Nat) (pd : ProfileData) : List Char :=
  let profile := pd.profile
  let name := Profile.get profile (S "name") (S "GitHub User")
  let bio := Profile.get profile (S "bio") (S "Software Developer")
  let avatarUrl := Profile.get profile (S "avatar_url") []
  let location := Profile.get profile (S "location") []
  let blog := Profile.get profile (S "blog") []
  let twitter := renderer_twitter profile
  let sortedRepos := pySortedDesc repoStarKey pd.repos
  let sk := skillsHtml (renderer_skills pd)
  let rh := reposHtml name sortedRepos
  tmplSeg0 ++ name ++ tmplSeg1 ++ name ++ tmplSeg2 ++ name ++ tmplSeg3 ++ renderer_css
    ++ tmplSeg4 ++ avatarUrl ++ tmplSeg5 ++ name ++ tmplSeg6 ++ name ++ tmplSeg7 ++ bio
    ++ tmplSeg8 ++ contact_location_part location ++ tmplSeg9 ++ contact_blog_part blog
    ++ tmplSeg10 ++ contact_twitter_part twitter ++ tmplSeg11 ++ name ++ tmplSeg12
    ++ skills_section_part sk ++ tmplSeg13 ++ repos_section_part rh ++ tmplSeg14 ++ natLC year
    ++ tmplSeg15 ++ name ++ tmplSeg16 ++ name ++ tmplSeg17 ++ footer_twitter_part twitter
    ++ tmplSeg18 ++ footer_blog_part blog ++ tmplSeg19 ++ [braceL] ++ js_field_1 ++ [braceR]
    ++ tmplSeg20 ++ [braceL] ++ js_field_2 ++ [braceR] ++ tmplSeg21

/-- `generate_portfolio_website` as callable code: a call can only be
observed if main.py parses (it does not: the template f-string is invalid,
`syntaxErrorAtImport`); were the template braces escaped, assembling the
template would evaluate `datetime.datetime.now().year` with `datetime`
unbound and raise `NameError` before returning.  The `ok` branch is
unreachable; the year passed there is arbitrary. -/
def generate_portfolio_website (pd : ProfileData) : Except PyError (List Char) :=
  if !renderer_template_wf then .error .syntaxErrorAtImport
  else if !datetime_is_bound then .error .nameError
  else .ok (assembled_template 0 pd)

/-! ## Embedding of `main.py` lines 838-952: `complete_html_structure`

The function parses its input with BeautifulSoup's `html.parser` builder and
repairs the resulting tree.  The tree, parser and serializer are embedded
directly; the serializer reproduces BeautifulSoup's output conventions on the
documents appearing in the theorems: void elements such as `<meta>` are
always printed XHTML-style (`<meta .../>`) even when the input wrote
`<meta ...>`, attribute values are double-quoted in document order, doctypes
print as `<!DOCTYPE html>`, and the contents of `<style>`/`<script>` are raw
text. -/

/-- A node of the parsed document tree. -/
inductive HNode where
  | doctype (s : List Char)
  | text (s : List Char)
  | elem (tag : List Char) (attrs : List (List Char × List Char)) (children : List HNode)
deriving Repr

/-- The HTML void elements, which `html.parser`/BeautifulSoup treat as
empty-element tags and print as `<tag/>`. -/
def voidTags : List (List Char) :=
  [S "area", S "base", S "br", S "col", S "embed", S "hr", S "img", S "input", S "link",
   S "meta", S "param", S "source", S "track", S "wbr"]

def isVoidTag (t : List Char) : Bool := voidTags.any (fun v => v == t)

/-- Elements whose content `html.parser` reads as raw text (CDATA mode). -/
def isRawTextTag (t : List Char) : Bool := t == S "style" || t == S "script"

def isTagNameChar (c : Char) : Bool := c.isAlpha || c.isDigit || c == '-'

def isHtmlWs (c : Char) : Bool := c == ' ' || c == '\n' || c == '\t' || c == '\r'

def attrNameChar (c : Char) : Bool :=
  !(c == '=' || c == '>' || c == '/' || isHtmlWs c || c == '"')

/-- Split at the first occurrence of `pat`: the part before it and the rest
from `pat` on (or `(s, [])` when absent). -/
def takeUntilPat (pat : List Char) : List Char → (List Char × List Char)
  | [] => ([], [])
  | c :: cs =>
    if pat.isPrefixOf (c :: cs) then ([], c :: cs)
    else
      let p := takeUntilPat pat cs
      (c :: p.1, p.2)

/-- Parse the attribute list of an open tag up to (and past) the closing
`>`; the middle component reports a self-closing `/>`. -/
def parseAttrs : Nat → List Char → (List (List Char × List Char) × Bool × List Char)
  | 0, s => ([], false, s)
  | fuel+1, s =>
    let s1 := s.dropWhile isHtmlWs
    match s1 with
    | [] => ([], false, [])
    | c :: cs =>
      if c == '>' then ([], false, cs)
      else if c == '/' then ([], true, (cs.dropWhile (fun d => !(d == '>'))).drop 1)
      else
        let aname := s1.takeWhile attrNameChar
        let r1 := s1.drop aname.length
        match r1 with
        | '=' :: '"' :: r2 =>
          let aval := r2.takeWhile (fun d => !(d == '"'))
          let r3 := (r2.drop aval.length).drop 1
          let rec1 := parseAttrs fuel r3
          ((aname, aval) :: rec1.1, rec1.2)
        | _ =>
          let rec1 := parseAttrs fuel (if aname.isEmpty then r1.drop 1 else r1)
          ((aname, []) :: rec1.1, rec1.2)

/-- The recursive-descent document parser (`close` is the enclosing open
tag, whose end tag terminates this child list). -/
def parseNodes : Nat → Option (List Char) → List Char → (List HNode × List Char)
  | 0, _, s => ([], s)
  | _+1, _, [] => ([], [])
  | fuel+1, close, c :: cs =>
    if c == '<' then
      match cs with
      | [] => ([HNode.text [c]], [])
      | c2 :: cs2 =>
        if c2 == '!' then
          let decl := cs2.takeWhile (fun d => !(d == '>'))
          let rest := (cs2.drop decl.length).drop 1
          let content := if (S "DOCTYPE ").isPrefixOf decl then decl.drop 8 else decl
          let p := parseNodes fuel close rest
          (HNode.doctype content :: p.1, p.2)
        else if c2 == '/' then
          let tname := lowerLC (cs2.takeWhile isTagNameChar)
          let rest := ((cs2.drop (cs2.takeWhile isTagNameChar).length).dropWhile
            (fun d => !(d == '>'))).drop 1
          match close with
          | some t => if tname == t then ([], rest) else parseNodes fuel close rest
          | none => parseNodes fuel close rest
        else
          let rawName := cs.takeWhile isTagNameChar
          let tname := lowerLC rawName
          let pa := parseAttrs fuel (cs.drop rawName.length)
          let attrs := pa.1
          let sc := pa.2.1
          let rest := pa.2.2
          if isVoidTag tname || sc then
            let p := parseNodes fuel close rest
            (HNode.elem tname attrs [] :: p.1, p.2)
          else if isRawTextTag tname then
            let q := takeUntilPat (S "</" ++ tname) rest
            let rest2 := (q.2.dropWhile (fun d => !(d == '>'))).drop 1
            let kids := if q.1.isEmpty then [] else [HNode.text q.1]
            let p := parseNodes fuel close rest2
            (HNode.elem tname attrs kids :: p.1, p.2)
          else
            let inner := parseNodes fuel (some tname) rest
            let p := parseNodes fuel close inner.2
            (HNode.elem tname attrs inner.1 :: p.1, p.2)
    else
      let txt := (c :: cs).takeWhile (fun d => !(d == '<'))
      let rest := (c :: cs).drop txt.length
      let p := parseNodes fuel close rest
      (HNode.text txt :: p.1, p.2)

/-- `BeautifulSoup(s, 'html.parser')`. -/
def parseHtml (s : List Char) : List HNode := (parseNodes (2 * s.length + 8) none s).1

/-- Attribute rendering, in document order, double-quoted. -/
def serializeAttrs (attrs : List (List Char × List Char)) : List Char :=
  (attrs.map (fun a => S " " ++ a.1 ++ S "=\"" ++ a.2 ++ S "\"")).flatten

/-- `str(soup)`: BeautifulSoup's serialization (see the section comment). -/
def serializeNodesFuel : Nat → List HNode → List Char
  | 0, _ => []
  | _+1, [] => []
  | fuel+1, n :: rest =>
    (match n with
     | HNode.doctype d => S "<!DOCTYPE " ++ d ++ S ">"
     | HNode.text t => t
     | HNode.elem tag attrs kids =>
       if isVoidTag tag then S "<" ++ tag ++ serializeAttrs attrs ++ S "/>"
       else S "<" ++ tag ++ serializeAttrs attrs ++ S ">" ++ serializeNodesFuel fuel kids
         ++ S "</" ++ tag ++ S ">") ++ serializeNodesFuel fuel rest

def serializeHtml (fuel : Nat) (ns : List HNode) : List Char := serializeNodesFuel fuel ns

/-- `soup.find(t)`: first element with the given tag, document (pre-)order. -/
def findTag : Nat → List Char → List HNode → Option HNode
  | 0, _, _ => none
  | _+1, _, [] => none
  | fuel+1, t, n :: rest =>
    match n with
    | HNode.elem tag _ kids =>
      if tag == t then some n
      else
        match findTag fuel t kids with
        | some m => some m
        | none => findTag fuel t rest
    | _ => findTag fuel t rest

def hasTag (fuel : Nat) (t : List Char) (ns : List HNode) : Bool := (findTag fuel t ns).isSome

/-- Is there an element (document order) whose tag and attributes satisfy
the predicate? -/
def anyElem : Nat → (List Char → List (List Char × List Char) → Bool) → List HNode → Bool
  | 0, _, _ => false
  | _+1, _, [] => false
  | fuel+1, p, n :: rest =>
    match n with
    | HNode.elem tag attrs kids => p tag attrs || anyElem fuel p kids || anyElem fuel p rest
    | _ => anyElem fuel p rest

/-- `soup.find('link', attrs=\x7b'rel': 'stylesheet'\x7d)` (`rel` is a
multi-valued attribute: the match is on the space-separated words). -/
def hasStylesheetLink (fuel : Nat) (ns : List HNode) : Bool :=
  anyElem fuel
    (fun tag attrs => tag == S "link" &&
      (match attrs.lookup (S "rel") with
       | some v => (v.splitOn ' ').any (fun w => w == S "stylesheet")
       | none => false)) ns

/-- `soup.find('link', attrs=\x7b'href': lambda x: x and 'font-awesome' in
x.lower()\x7d)`. -/
def hasFALink (fuel : Nat) (ns : List HNode) : Bool :=
  anyElem fuel
    (fun tag attrs => tag == S "link" &&
      (match attrs.lookup (S "href") with
       | some v => containsLC (lowerLC v) (S "font-awesome")
       | none => false)) ns

/-- Append a child to the first element with the given tag (document
order); the flag reports whether an element was found. -/
def appendToFirstTag : Nat → List Char → HNode → List HNode → (List HNode × Bool)
  | 0, _, _, ns => (ns, false)
  | _+1, _, _, [] => ([], false)
  | fuel+1, t, x, n :: rest =>
    match n with
    | HNode.elem tag attrs kids =>
      if tag == t then (HNode.elem tag attrs (kids ++ [x]) :: rest, true)
      else
        let r := appendToFirstTag fuel t x kids
        if r.2 then (HNode.elem tag attrs r.1 :: rest, true)
        else
          let r2 := appendToFirstTag fuel t x rest
          (n :: r2.1, r2.2)
    | _ =>
      let r2 := appendToFirstTag fuel t x rest
      (n :: r2.1, r2.2)

/-- Transform the first element with the given tag (document order). -/
def transformFirstTag : Nat → List Char → (HNode → HNode) → List HNode → (List HNode × Bool)
  | 0, _, _, ns => (ns, false)
  | _+1, _, _, [] => ([], false)
  | fuel+1, t, f, n :: rest =>
    match n with
    | HNode.elem tag attrs kids =>
      if tag == t then (f n :: rest, true)
      else
        let r := transformFirstTag fuel t f kids
        if r.2 then (HNode.elem tag attrs r.1 :: rest, true)
        else
          let r2 := transformFirstTag fuel t f rest
          (n :: r2.1, r2.2)
    | _ =>
      let r2 := transformFirstTag fuel t f rest
      (n :: r2.1, r2.2)

def isHeadNode : HNode → Bool
  | HNode.elem tag _ _ => tag == S "head"
  | _ => false

def skeleton_pre : List Char := S "<!DOCTYPE html>\n<html lang=\"en\">\n<head>\n<meta charset=\"UTF-8\">\n<title>Portfolio</title>\n</head>\n<body>\n"

def skeleton_post : List Char := S "\n</body>\n</html>"

def default_injected_css : List Char := S "\n            body \x7b\n                font-family: -apple-system, BlinkMacSystemFont, 'Segoe UI', Roboto, sans-serif;\n                line-height: 1.6;\n                color: #333;\n                max-width: 1200px;\n                margin: 0 auto;\n                padding: 20px;\n            \x7d\n            "

/-- main.py lines 862-876: synthesize a `<head>` with a charset meta and a
title and insert it as the first child of `<html>`. -/
def addHeadIfMissing (fuel : Nat) (ns : List HNode) : List HNode × List (List Char) :=
  if hasTag fuel (S "head") ns then (ns, [])
  else
    let headNode := HNode.elem (S "head") []
      [HNode.elem (S "meta") [(S "charset", S "UTF-8")] [],
       HNode.elem (S "title") [] [HNode.text (S "Portfolio")]]
    let r := transformFirstTag fuel (S "html")
      (fun n => match n with
        | HNode.elem tag attrs kids => HNode.elem tag attrs (headNode :: kids)
        | other => other) ns
    (r.1, [S "Added head tag"])

/-- main.py lines 878-888: synthesize a `<body>` and move every non-`head`
child of `<html>` into it. -/
def addBodyIfMissing (fuel : Nat) (ns : List HNode) : List HNode × List (List Char) :=
  if hasTag fuel (S "body") ns then (ns, [])
  else
    let r := transformFirstTag fuel (S "html")
      (fun n => match n with
        | HNode.elem tag attrs kids =>
          HNode.elem tag attrs
            ((kids.filter isHeadNode)
              ++ [HNode.elem (S "body") [] (kids.filter (fun k => !(isHeadNode k)))])
        | other => other) ns
    (r.1, [S "Added body tag"])

/-- main.py lines 921-932, one `<style>` block: count braces and append the
deficit of closing braces; report the fix entry recording that exact count. -/
def css_brace_fix (css : List Char) : List Char × List (List Char) :=
  let opens := countChar braceL css
  let closes := countChar braceR css
  if closes < opens then
    (css ++ S "\n" ++ List.replicate (opens - closes) braceR,
     [S "Added " ++ natLC (opens - closes) ++ S " missing CSS closing braces"])
  else (css, [])

/-- main.py lines 922-932: the loop over `soup.find_all('style')`.  A style
tag whose `.string` is falsy (no single text child, or an empty one) is
skipped. -/
def styleFixPass : Nat → List HNode → (List HNode × List (List Char))
  | 0, ns => (ns, [])
  | _+1, [] => ([], [])
  | fuel+1, n :: rest =>
    let nodeRes : HNode × List (List Char) :=
      match n with
      | HNode.elem tag attrs kids =>
        if tag == S "style" then
          match kids with
          | [HNode.text s] =>
            if s.isEmpty then (n, [])
            else
              let fr := css_brace_fix s
              (HNode.elem tag attrs [HNode.text fr.1], fr.2)
          | _ =>
            let r := styleFixPass fuel kids
            (HNode.elem tag attrs r.1, r.2)
        else
          let r := styleFixPass fuel kids
          (HNode.elem tag attrs r.1, r.2)
      | other => (other, [])
    let restRes := styleFixPass fuel rest
    (nodeRes.1 :: restRes.1, nodeRes.2 ++ restRes.2)

/-- The default style element injected at lines 894-906. -/
def defaultStyleNode : HNode := HNode.elem (S "style") [] [HNode.text default_injected_css]

/-- The Font Awesome link element injected at lines 912-917. -/
def faLinkNode : HNode :=
  HNode.elem (S "link")
    [(S "rel", S "stylesheet"),
     (S "href", S "https://cdnjs.cloudflare.com/ajax/libs/font-awesome/6.4.0/css/all.min.css")]
    []

/-- main.py lines 892-945: the stages after the `<html>`/`<head>`/`<body>`
checks.  `input` is the original `html_content` (used by the final length
comparison), `fixed` the current `fixed_html` string, `soup` the current
tree. -/
def repair_stage2 (fuel : Nat) (input fixed : List Char) (soup : List HNode)
    (fixes : List (List Char)) : List Char × List (List Char) :=
  let styleMissing := !(hasTag fuel (S "style") soup) && !(hasStylesheetLink fuel soup)
  let st1 : List HNode × List Char × List (List Char) :=
    if styleMissing then
      let soup' := (appendToFirstTag fuel (S "head") defaultStyleNode soup).1
      (soup', serializeHtml fuel soup', fixes ++ [S "Added basic CSS"])
    else (soup, fixed, fixes)
  let faNeeded := containsLC st1.2.1 (S "fa-") && !(hasFALink fuel st1.1)
  let st2 : List HNode × List Char × List (List Char) :=
    if faNeeded then
      let soup' := (appendToFirstTag fuel (S "head") faLinkNode st1.1).1
      (soup', serializeHtml fuel soup', st1.2.2 ++ [S "Added Font Awesome link"])
    else st1
  let br := styleFixPass fuel st2.1
  let st3 : List Char × List (List Char) :=
    if br.2.isEmpty then (st2.2.1, st2.2.2)
    else (serializeHtml fuel br.1, st2.2.2 ++ br.2)
  let withLen :=
    if st3.1.length ≠ input.length ∧ st3.1 ≠ input then
      st3.2 ++ [S "Fixed HTML structure and missing tags"]
    else st3.2
  (st3.1, if withLen.isEmpty then [S "HTML structure is already valid"] else withLen)

/-- main.py lines 838-952: `complete_html_structure`.  Returns the fixed
HTML string and the ordered list of fix entries (the code's `fixes_made`).
The `except` fallback of lines 946-952 is unreachable here because every
embedded step is total. -/
def complete_html_structure (input : List Char) : List Char × List (List Char) :=
  let fuel := 4 * input.length + 1024
  let soup0 := parseHtml input
  let fixed0 := serializeHtml fuel soup0
  if !(hasTag fuel (S "html") soup0) then
    let fixed1 := skeleton_pre ++ fixed0 ++ skeleton_post
    let soup1 := parseHtml fixed1
    repair_stage2 fuel input fixed1 soup1 [S "Added basic HTML structure"]
  else
    let r1 := addHeadIfMissing fuel soup0
    let r2 := addBodyIfMissing fuel r1.1
    repair_stage2 fuel input (serializeHtml fuel r2.1) r2.1 (r1.2 ++ r2.2)

theorem isSubstr_iff (pat : List Char) : ∀ s, isSubstr pat s = true ↔ pat <:+: s := by
  intro s
  induction s with
  | nil =>
    simp only [isSubstr, List.isEmpty_iff]
    constructor
    · rintro rfl; exact List.infix_refl []
    · exact List.eq_nil_of_infix_nil
  | cons c cs ih =>
    simp only [isSubstr, Bool.or_eq_true, List.isPrefixOf_iff_prefix, ih, List.infix_cons_iff]

theorem containsLC_iff (hay pat : List Char) : containsLC hay pat = true ↔ pat <:+: hay :=
  isSubstr_iff pat hay

theorem char_toNat_ofNat_valid (n : Nat) (h : n.isValidChar) : (Char.ofNat n).toNat = n := by
  unfold Char.ofNat
  rw [dif_pos h]
  rfl

theorem isUpper_eq_toNat (d : Char) : d.isUpper = (65 ≤ d.toNat && d.toNat ≤ 90) := by
  simp only [Char.isUpper, Char.toNat, UInt32.le_def, BitVec.le_def, ge_iff_le]
  rfl

/-- `Char.toLower` never produces an ASCII uppercase letter. -/
theorem toLower_isUpper_false (c : Char) : (Char.toLower c).isUpper = false := by
  rw [isUpper_eq_toNat]
  rw [show Char.toLower c = if c.toNat ≥ 65 ∧ c.toNat ≤ 90 then Char.ofNat (c.toNat + 32) else c
      from rfl]
  split
  · next h =>
    have hv : (c.toNat + 32).isValidChar := by
      left
      have := h.2
      omega
    rw [char_toNat_ofNat_valid _ hv]
    have := h.1
    simp only [Bool.and_eq_false_iff]
    right
    simp only [decide_eq_false_iff_not]
    omega
  · next h =>
    simp only [Bool.and_eq_false_iff, decide_eq_false_iff_not]
    omega

/-! ## Occurrence-disjointness machinery for `pyReplace`

`DisjointCo t pat` says that in any string containing an occurrence of `t`
and an occurrence of `pat`, the two occurrences are position-disjoint.  It is
implied by the decidable `overlapFree` check on the two patterns, and it is
exactly what is needed to show that `pyReplace` (which rewrites occurrences of
`pat`) preserves occurrences of `t`. -/

theorem overlapFree_spec {t pat : List Char} (h : overlapFree t pat = true) :
    (¬ t <:+: pat) ∧ (¬ pat <:+: t) ∧
    (∀ z : List Char, z <:+ pat → z ≠ [] → ¬ z <+: t) ∧
    (∀ z : List Char, z <:+ t → z ≠ [] → ¬ z <+: pat) := by
  simp only [overlapFree, Bool.and_eq_true, List.all_eq_true, Bool.or_eq_true,
    Bool.not_eq_true', List.isEmpty_iff] at h
  obtain ⟨⟨⟨h1, h2⟩, h3⟩, h4⟩ := h
  refine ⟨?_, ?_, ?_, ?_⟩
  · rw [← isSubstr_iff t pat, h1]; exact Bool.false_ne_true
  · rw [← isSubstr_iff pat t, h2]; exact Bool.false_ne_true
  · intro z hz hne
    have := h3 z ((List.mem_tails _ _).2 hz)
    rcases this with h | h
    · exact absurd h hne
    · intro hp
      rw [← List.isPrefixOf_iff_prefix] at hp
      rw [h] at hp
      exact Bool.false_ne_true hp
  · intro z hz hne
    have := h4 z ((List.mem_tails _ _).2 hz)
    rcases this with h | h
    · exact absurd h hne
    · intro hp
      rw [← List.isPrefixOf_iff_prefix] at hp
      rw [h] at hp
      exact Bool.false_ne_true hp

theorem disjointCo_of_overlapFree {t pat : List Char} (h : overlapFree t pat = true) :
    DisjointCo t pat := by
  obtain ⟨hC1, hC2, hC3, hC4⟩ := overlapFree_spec h
  intro l r u v heq
  rw [List.append_assoc, List.append_assoc] at heq
  rcases List.append_eq_append_iff.1 heq with ⟨w, hu, htw⟩ | ⟨w, hl, hpw⟩
  · -- u = l ++ w, t ++ r = w ++ (pat ++ v)
    rcases List.append_eq_append_iff.1 htw with ⟨w', hw, _⟩ | ⟨t2, ht, hp2⟩
    · -- w = t ++ w' : occurrence of pat is at or after the end of t
      right
      subst hu hw
      simp [List.length_append]
    · -- t = w ++ t2, pat ++ v = t2 ++ r
      rcases eq_or_ne t2 [] with h0 | hne
      · right
        subst h0 hu
        simp [ht, List.length_append]
      · exfalso
        rcases List.append_eq_append_iff.1 hp2 with ⟨p', hp', _⟩ | ⟨q, hq, _⟩
        · -- t2 = pat ++ p' : pat occurs inside t
          exact hC2 ⟨w, p', by rw [ht, hp', List.append_assoc]⟩
        · -- pat = t2 ++ q : nonempty suffix t2 of t is a prefix of pat
          exact hC4 t2 ⟨w, ht.symm⟩ hne ⟨q, hq.symm⟩
  · -- l = u ++ w, pat ++ v = w ++ (t ++ r)
    rcases List.append_eq_append_iff.1 hpw with ⟨w', hw, _⟩ | ⟨p2, hp, ht2⟩
    · -- w = pat ++ w' : pat ends at or before the start of t
      left
      subst hl hw
      simp [List.length_append]
    · -- pat = w ++ p2, t ++ r = p2 ++ v
      rcases eq_or_ne p2 [] with h0 | hne
      · left
        subst h0 hl
        simp [hp, List.length_append]
      · exfalso
        rcases List.append_eq_append_iff.1 ht2 with ⟨a, ha, _⟩ | ⟨b, hb, _⟩
        · -- p2 = t ++ a : t occurs inside pat
          exact hC1 ⟨w, a, by rw [hp, ha, List.append_assoc]⟩
        · -- t = p2 ++ b : nonempty suffix p2 of pat is a prefix of t
          exact hC3 p2 ⟨w, hp.symm⟩ hne ⟨b, hb.symm⟩

theorem infix_append_left (x : List Char) {t y : List Char} (h : t <:+: y) : t <:+: x ++ y := by
  obtain ⟨l, r, hy⟩ := h
  exact ⟨x ++ l, r, by rw [← hy]; simp [List.append_assoc]⟩

theorem infix_append_right (y : List Char) {t x : List Char} (h : t <:+: x) : t <:+: x ++ y := by
  obtain ⟨l, r, hx⟩ := h
  exact ⟨l, r ++ y, by rw [← hx]; simp [List.append_assoc]⟩

/-- If `pat` occurs in `s`, the replacement text `rep` occurs in the result of
`pyReplace` (at least one rewrite fires). -/
theorem rep_infix_replaceFuel (pat rep : List Char) (hpat : pat ≠ []) :
    ∀ fuel s, s.length ≤ fuel → pat <:+: s → rep <:+: replaceFuel pat rep fuel s := by
  intro fuel
  induction fuel with
  | zero =>
    intro s hs hp
    interval_cases hlen : s.length
    · have : s = [] := List.length_eq_zero.1 hlen
      subst this
      exact absurd (List.eq_nil_of_infix_nil hp) hpat
  | succ n ih =>
    intro s hs hp
    match s with
    | [] => exact absurd (List.eq_nil_of_infix_nil hp) hpat
    | c :: cs =>
      by_cases hpre : pat.isPrefixOf (c :: cs)
      · rw [replaceFuel, if_pos hpre]
        exact infix_append_right _ (List.infix_refl rep)
      · rw [replaceFuel, if_neg hpre]
        rcases List.infix_cons_iff.1 hp with h1 | h2
        · exact absurd (List.isPrefixOf_iff_prefix.2 h1) hpre
        · have hcs : cs.length ≤ n := by
            have := hs
            simp only [List.length_cons] at this
            omega
          exact List.infix_cons (ih cs hcs h2)

/-- Helper: a prefix occurrence of `t` (viewed through a character map `f`)
survives `pyReplace` when no occurrence of `pat` starts strictly inside it. -/
theorem prefix_preserved_replaceFuel (f : Char → Char) (pat rep : List Char) :
    ∀ t fuel s, s.length ≤ fuel → t <+: s.map f →
      (∀ k, k < t.length → ¬ pat <+: s.drop k) →
      t <+: (replaceFuel pat rep fuel s).map f := by
  intro t
  induction t with
  | nil => intro fuel s _ _ _; exact List.nil_prefix
  | cons a t' ih =>
    intro fuel s hs hpre hno
    match s with
    | [] => simp at hpre
    | c :: cs =>
      match fuel with
      | 0 => simp at hs
      | n+1 =>
        have hnot : ¬ pat.isPrefixOf (c :: cs) := by
          intro hcon
          exact hno 0 (by simp) (by simpa using List.isPrefixOf_iff_prefix.1 hcon)
        rw [replaceFuel, if_neg hnot]
        simp only [List.map_cons, List.cons_prefix_cons] at hpre ⊢
        refine ⟨hpre.1, ih n cs ?_ hpre.2 ?_⟩
        · have := hs; simp only [List.length_cons] at this; omega
        · intro k hk
          have := hno (k+1) (by simpa using Nat.succ_lt_succ hk)
          simpa using this

/-- Main preservation lemma: an occurrence of `t` in `s.map f` survives
`pyReplace pat rep` applied to `s`, provided `t` cannot overlap an occurrence
of `pat.map f` (the image of the rewritten region). -/
theorem infix_preserved_replaceFuel (f : Char → Char) (t pat rep : List Char)
    (hpat : pat ≠ []) (hdis : DisjointCo t (pat.map f)) :
    ∀ fuel s, s.length ≤ fuel → t <:+: s.map f →
      t <:+: (replaceFuel pat rep fuel s).map f := by
  intro fuel
  induction fuel with
  | zero =>
    intro s hs ht
    have hnil : s = [] := List.length_eq_zero.1 (Nat.le_zero.1 hs)
    subst hnil
    have ht' : t = [] := by simpa using ht
    subst ht'
    exact List.nil_infix
  | succ n ih =>
    intro s hs ht
    match s with
    | [] =>
      have ht' : t = [] := by simpa using ht
      subst ht'
      exact List.nil_infix
    | c :: cs =>
      have hcs : cs.length ≤ n := by
        have := hs; simp only [List.length_cons] at this; omega
      rcases eq_or_ne t [] with rfl | htne
      · exact List.nil_infix
      by_cases hpre : pat.isPrefixOf (c :: cs)
      · -- a rewrite fires here: `c :: cs = pat ++ rest`
        rw [replaceFuel, if_pos hpre]
        have hp : pat <+: c :: cs := List.isPrefixOf_iff_prefix.1 hpre
        obtain ⟨rest, hrest⟩ := hp
        have hrestdef : rest = cs.drop (pat.length - 1) := by
          have hdropfull : (c :: cs).drop pat.length = rest := by
            rw [← hrest, List.drop_left]
          rw [← hdropfull]
          match pat, hpat with
          | p :: ps, _ => simp
        obtain ⟨l, r, hlr⟩ := ht
        rw [← hrest, List.map_append] at hlr
        rcases hdis l r [] (rest.map f) (by simpa using hlr) with hle | hle
        · -- pat.map f ends at or before the start of t:
          -- the occurrence of t lies entirely in `rest`
          simp only [List.length_nil, Nat.zero_add] at hle
          have h1 : pat.map f <+: l ++ (t ++ r) := by
            refine ⟨rest.map f, ?_⟩
            rw [← List.append_assoc]
            exact hlr.symm
          have hlpre : pat.map f <+: l :=
            List.prefix_of_prefix_length_le h1 (List.prefix_append l (t ++ r)) (by simpa using hle)

          obtain ⟨l', rfl⟩ := hlpre
          have htrest : t <:+: rest.map f := by
            refine ⟨l', r, ?_⟩
            have h2 := hlr
            rw [List.append_assoc, List.append_assoc] at h2
            have h3 := List.append_cancel_left h2
            rw [← List.append_assoc] at h3
            exact h3
          have hlen' : (cs.drop (pat.length - 1)).length ≤ n := by
            rw [List.length_drop]; omega
          have hrec := ih (cs.drop (pat.length - 1)) hlen' (hrestdef ▸ htrest)
          rw [List.map_append]
          exact infix_append_left _ hrec
        · -- t would end before position 0: t empty, contradiction
          exfalso
          simp only [List.length_nil] at hle
          have : t.length = 0 := by omega
          exact htne (List.length_eq_zero.1 this)
      · rw [replaceFuel, if_neg hpre]
        rcases List.infix_cons_iff.1 (by simpa using ht) with h1 | h2
        · -- t is a prefix of (c :: cs).map f: no pat occurrence can start inside it
          have htlen : t.length ≤ (c :: cs).length := by
            obtain ⟨w', hw'⟩ := h1
            have := congrArg List.length hw'
            simp only [List.length_append, List.length_map, List.length_cons] at this
            simp only [List.length_cons]
            omega
          have hnostart : ∀ k, k < t.length → ¬ pat <+: (c :: cs).drop k := by
            intro k hk hcon
            obtain ⟨rest', hrest'⟩ := hcon
            obtain ⟨w, hw⟩ := h1
            have hsplit : c :: cs = (c :: cs).take k ++ (pat ++ rest') := by
              rw [hrest', List.take_append_drop]
            have hmapsplit : List.map f (c :: cs)
                = ((c :: cs).take k).map f ++ pat.map f ++ rest'.map f := by
              conv_lhs => rw [hsplit]
              simp [List.map_append, List.append_assoc]
            have hmap : ([] : List Char) ++ t ++ w
                = ((c :: cs).take k).map f ++ pat.map f ++ rest'.map f := by
              rw [← hmapsplit]
              simp only [List.nil_append, List.append_assoc]
              simpa using hw
            rcases hdis [] w (((c :: cs).take k).map f) (rest'.map f) hmap with hle | hle
            · -- take-k part plus pat fits before position 0: forces pat = []
              simp only [List.length_nil, List.length_map] at hle
              have : pat.length = 0 := by omega
              exact hpat (List.length_eq_zero.1 this)
            · -- t ends at or before position k: contradicts k < t.length
              simp only [List.length_nil, List.length_map, Nat.zero_add] at hle
              have hklen : ((c :: cs).take k).length = k := by
                rw [List.length_take]
                have : k < (c :: cs).length := lt_of_lt_of_le hk htlen
                omega
              omega
          have hfin := prefix_preserved_replaceFuel f pat rep t (n+1) (c :: cs) hs h1 hnostart
          rw [replaceFuel, if_neg hpre] at hfin
          exact hfin.isInfix
        · exact List.infix_cons (ih cs hcs h2)

/-- Occurrences of `t` in `s` survive `pyReplace s pat rep` when `t` and `pat`
cannot overlap. -/
theorem infix_preserved_pyReplace {t pat : List Char} (rep : List Char) {s : List Char}
    (hpat : pat ≠ []) (hfree : overlapFree t pat = true) (ht : t <:+: s) :
    t <:+: pyReplace s pat rep := by
  have h := infix_preserved_replaceFuel id t pat rep hpat
    (by simpa [List.map_id] using disjointCo_of_overlapFree hfree)
    s.length s le_rfl (by simpa [List.map_id] using ht)
  simpa [pyReplace, List.map_id] using h

/-- Case-folded variant: occurrences of `t` in `lowerLC s` survive
`pyReplace s pat rep` when `t` and `lowerLC pat` cannot overlap. -/
theorem infix_lower_preserved_pyReplace {t pat : List Char} (rep : List Char) {s : List Char}
    (hpat : pat ≠ []) (hfree : overlapFree t (lowerLC pat) = true)
    (ht : t <:+: lowerLC s) :
    t <:+: lowerLC (pyReplace s pat rep) := by
  have h := infix_preserved_replaceFuel Char.toLower t pat rep hpat
    (disjointCo_of_overlapFree hfree) s.length s le_rfl ht
  simpa [pyReplace, lowerLC] using h

/-- If `pat` occurs in `s` then the replacement text occurs in
`pyReplace s pat rep`. -/
theorem rep_infix_pyReplace {pat : List Char} (rep : List Char) {s : List Char}
    (hpat : pat ≠ []) (hp : pat <:+: s) : rep <:+: pyReplace s pat rep :=
  rep_infix_replaceFuel pat rep hpat s.length s le_rfl hp

/-! ## Stable descending sort: the properties behind `sorted(..., key=...,
reverse=True)` -/

theorem insortDesc_perm {α : Type} (key : α → Nat) (x : α) (l : List α) :
    List.Perm (insortDesc key x l) (x :: l) := by
  induction l with
  | nil => simp [insortDesc]
  | cons y ys ih =>
    rw [insortDesc]
    split
    · exact List.Perm.refl _
    · exact (List.Perm.cons y ih).trans (List.Perm.swap x y ys)

theorem pySortedDesc_perm {α : Type} (key : α → Nat) (l : List α) :
    List.Perm (pySortedDesc key l) l := by
  induction l with
  | nil => exact List.Perm.refl _
  | cons a l ih => exact (insortDesc_perm key a (pySortedDesc key l)).trans (List.Perm.cons a ih)

theorem insortDesc_sorted {α : Type} (key : α → Nat) (x : α) {l : List α}
    (h : l.Pairwise (fun a b => key b ≤ key a)) :
    (insortDesc key x l).Pairwise (fun a b => key b ≤ key a) := by
  induction l with
  | nil => simp [insortDesc]
  | cons y ys ih =>
    rw [insortDesc]
    rcases List.pairwise_cons.1 h with ⟨hy, hys⟩
    split
    · next hle =>
      refine List.pairwise_cons.2 ⟨?_, h⟩
      intro b hb
      rcases List.mem_cons.1 hb with rfl | hb
      · exact hle
      · exact le_trans (hy b hb) hle
    · next hgt =>
      refine List.pairwise_cons.2 ⟨?_, ih hys⟩
      intro b hb
      have hb' := (insortDesc_perm key x ys).mem_iff.1 hb
      rcases List.mem_cons.1 hb' with rfl | hb'
      · omega
      · exact hy b hb'

theorem pySortedDesc_sorted {α : Type} (key : α → Nat) (l : List α) :
    (pySortedDesc key l).Pairwise (fun a b => key b ≤ key a) := by
  induction l with
  | nil => simp [pySortedDesc]
  | cons a l ih => exact insortDesc_sorted key a ih

theorem insortDesc_filter_key {α : Type} (key : α → Nat) (x : α) (l : List α) (n : Nat) :
    (insortDesc key x l).filter (fun a => key a == n)
      = if key x == n then x :: l.filter (fun a => key a == n)
        else l.filter (fun a => key a == n) := by
  induction l with
  | nil =>
    cases h : (key x == n) <;> simp [insortDesc, List.filter, h]
  | cons y ys ih =>
    rw [insortDesc]
    by_cases hle : key y ≤ key x
    · rw [if_pos hle]
      cases h : (key x == n) <;> simp [List.filter_cons, h]
    · rw [if_neg hle]
      rw [List.filter_cons, ih]
      cases h : (key x == n) with
      | false => simp [List.filter_cons, h]
      | true =>
        have hxn : key x = n := eq_of_beq h
        have hyn : (key y == n) = false := by
          simp only [beq_eq_false_iff_ne, ne_eq]
          omega
        simp [List.filter_cons, h, hyn]

theorem pySortedDesc_filter_key {α : Type} (key : α → Nat) (l : List α) (n : Nat) :
    (pySortedDesc key l).filter (fun a => key a == n) = l.filter (fun a => key a == n) := by
  induction l with
  | nil => rfl
  | cons a l ih =>
    show (insortDesc key a (pySortedDesc key l)).filter _ = _
    rw [insortDesc_filter_key]
    cases h : (key a == n) <;> simp [List.filter_cons, h, ih]

/-- C7.  For every language-occurrence histogram (a dict in first-seen key
order), each derived skill has `level = min(count * 20, 100)` for the count
recorded against its name; the underlying sorted pair list is ordered by
descending occurrence count; and for every count value the skills with that
count keep exactly the histogram's first-seen order (stability of
`sorted(..., reverse=True)`).  The skills list is exactly the image of that
sorted list. -/
theorem c7_skill_levels_and_order (hist : List (List Char × Nat)) :
    (∀ sk ∈ skills_from_histogram hist,
      ∃ c : Nat, (sk.name, c) ∈ hist ∧ sk.level = min (c * 20) 100)
    ∧ (pySortedDesc (fun p => p.2) hist).Pairwise (fun a b => b.2 ≤ a.2)
    ∧ (∀ n : Nat, (pySortedDesc (fun p => p.2) hist).filter (fun p => p.2 == n)
        = hist.filter (fun p => p.2 == n))
    ∧ skills_from_histogram hist
        = (pySortedDesc (fun p => p.2) hist).map (fun p => ⟨p.1, min (p.2 * 20) 100⟩) := by
  refine ⟨?_, pySortedDesc_sorted _ hist, fun n => pySortedDesc_filter_key _ hist n, rfl⟩
  intro sk hsk
  rw [skills_from_histogram, List.mem_map] at hsk
  obtain ⟨p, hp, rfl⟩ := hsk
  exact ⟨p.2, (pySortedDesc_perm (fun p => p.2) hist).mem_iff.1 hp, rfl⟩

/-- C7 witness: the theorem applied to the concrete histogram
`Python ↦ 2, Rust ↦ 6, Go ↦ 2, C ↦ 6`. -/
theorem c7_witness :
    (∃ c : Nat, ((S "Rust", c) ∈ [(S "Python", 2), (S "Rust", 6), (S "Go", 2), (S "C", 6)]
      ∧ (100 : Nat) = min (c * 20) 100))
    ∧ (∀ n : Nat,
        (pySortedDesc (fun p => p.2) [(S "Python", 2), (S "Rust", 6), (S "Go", 2), (S "C", 6)]).filter
            (fun p => p.2 == n)
          = [(S "Python", 2), (S "Rust", 6), (S "Go", 2), (S "C", 6)].filter (fun p => p.2 == n)) := by
  have h := c7_skill_levels_and_order [(S "Python", 2), (S "Rust", 6), (S "Go", 2), (S "C", 6)]
  refine ⟨?_, h.2.2.1⟩
  exact h.1 ⟨S "Rust", 100⟩ (by decide)

/-! ## C3: the profile-fetch retry loop -/

theorem profile_fetch_loop_exit (tr : List ExtractOutcome) (d : Option Json)
    (evs : List RetryEvent) : profile_fetch_loop tr 3 d evs = (d, evs) := by
  cases tr with
  | nil => rfl
  | cons a t => simp [profile_fetch_loop]

/-- C3 counterexample.  With an operation that fails on all three attempts,
the `Retrying...` status update fires exactly twice (attempts 1 and 2), not
three times as claimed; the exhaustion update fires once, and the loop falls
back to the basic profile. -/
theorem c3_counterexample :
    (fetch_profile_with_fallback [ExtractOutcome.exn, ExtractOutcome.exn, ExtractOutcome.exn]
        (S "octocat")).2
      = [RetryEvent.retrying 1, RetryEvent.retrying 2, RetryEvent.exhausted]
    ∧ ((fetch_profile_with_fallback [ExtractOutcome.exn, ExtractOutcome.exn, ExtractOutcome.exn]
        (S "octocat")).2.countP
          (fun e => match e with | RetryEvent.retrying _ => true | _ => false)) = 2
    ∧ (2 : Nat) ≠ 3
    ∧ (fetch_profile_with_fallback [ExtractOutcome.exn, ExtractOutcome.exn, ExtractOutcome.exn]
        (S "octocat")).1 = basic_profile (S "octocat") := by
  exact ⟨rfl, rfl, by decide, rfl⟩

/-- C3 amended: for an operation failing on every attempt with
`max_attempts = 3`, the loop pushes the `Retrying...` update exactly twice
(after failures 1 and 2), pushes the exhaustion update exactly once (after
failure 3), and returns the caller-supplied fallback (the minimal basic
profile) instead of propagating the error. -/
theorem c3_amended (rest : List ExtractOutcome) (username : List Char) :
    fetch_profile_with_fallback
        (ExtractOutcome.exn :: ExtractOutcome.exn :: ExtractOutcome.exn :: rest) username
      = (basic_profile username,
         [RetryEvent.retrying 1, RetryEvent.retrying 2, RetryEvent.exhausted]) := by
  show (let res := profile_fetch_loop _ 0 none []
        (res.1.getD (basic_profile username), res.2)) = _
  have h1 : profile_fetch_loop
      (ExtractOutcome.exn :: ExtractOutcome.exn :: ExtractOutcome.exn :: rest) 0 none []
      = profile_fetch_loop rest 3 none
          [RetryEvent.retrying 1, RetryEvent.retrying 2, RetryEvent.exhausted] := by
    simp [profile_fetch_loop]
  simp only [h1, profile_fetch_loop_exit]
  rfl

/-! ## C8: JSON extraction from a model response -/

/-- C8 counterexample.  The response below contains a fenced block tagged
`json` whose body parses, but extraction parses the body of the FIRST fence
(the untagged `notjson` one), which raises, so the attempt fails: the
tagged block's body is never parsed. -/
theorem c8_counterexample :
    containsLC (S "```\nnotjson\n```\nsee also\n```json\n\x7b\"a\": 1\x7d\n```")
        (S "```json\n\x7b\"a\": 1\x7d\n```") = true
    ∧ jsonLoads (S "\x7b\"a\": 1\x7d") = some (Json.obj [(S "a", Json.num 1)])
    ∧ fencedBody (S "json") (S "```\nnotjson\n```\nsee also\n```json\n\x7b\"a\": 1\x7d\n```")
        = some (S "notjson")
    ∧ extract_profile_data (S "```\nnotjson\n```\nsee also\n```json\n\x7b\"a\": 1\x7d\n```")
        = ExtractOutcome.exn
    ∧ (∀ j : Json, ExtractOutcome.exn ≠ ExtractOutcome.ok j) := by
  refine ⟨rfl, rfl, rfl, rfl, ?_⟩
  intro j h
  exact ExtractOutcome.noConfusion h

/-- C8 amended: extraction searches the text for the pattern
`(three backticks)(?:json)?\n(.*?)\n(three backticks)` with DOTALL, so a
match can open only where the backticks are followed -- after an optional
literal `json` tag -- by a newline, and the lazily captured span is handed
to `json.loads` (first conjunct, phrased over the model's `fencedBody`,
which implements exactly this leftmost-match search).  A fence tagged with
any other word cannot open a match: on a response whose first block is
python-tagged, the match opens at that block's CLOSING fence and captures
the span between the two blocks (here the prose `prose`), so neither the
first block's body nor the later valid json body is parsed and the attempt
fails.  With no match at all, the first `\x7b...\x7d` span has its single
quotes replaced by double quotes and is parsed -- the unfenced
`\x7b'a': 1\x7d` yields the object `\x7b"a": 1\x7d` -- and a response that
is a lone json-tagged fence is parsed as the original claim says. -/
theorem c8_amended :
    (∀ resp body : List Char, fencedBody (S "json") resp = some body →
      extract_profile_data resp
        = (match jsonLoads body with
           | some j => ExtractOutcome.ok j
           | none => ExtractOutcome.exn))
    ∧ fencedBody (S "json") (S "```python\nX = 1\n```\nprose\n```json\n\x7b\"a\": 1\x7d\n```")
        = some (S "prose")
    ∧ extract_profile_data (S "```python\nX = 1\n```\nprose\n```json\n\x7b\"a\": 1\x7d\n```")
        = ExtractOutcome.exn
    ∧ extract_profile_data (S "\x7b'a': 1\x7d") = ExtractOutcome.ok (Json.obj [(S "a", Json.num 1)])
    ∧ extract_profile_data (S "```json\n\x7b\"a\": 1\x7d\n```")
        = ExtractOutcome.ok (Json.obj [(S "a", Json.num 1)]) := by
  refine ⟨?_, rfl, rfl, rfl, rfl⟩
  intro resp body h
  rw [extract_profile_data, h]

/-- C8 witness: the general fence clause of the amended claim applied to a
concrete tagged fence. -/
theorem c8_witness :
    extract_profile_data (S "before ```json\n\x7b\"b\": 7\x7d\n``` after")
      = (match jsonLoads (S "\x7b\"b\": 7\x7d") with
         | some j => ExtractOutcome.ok j
         | none => ExtractOutcome.exn) :=
  c8_amended.1 (S "before ```json\n\x7b\"b\": 7\x7d\n``` after") (S "\x7b\"b\": 7\x7d") rfl

/-! ## C10: the username is extracted from the lowercased message -/

theorem findGithubUsername_spec :
    ∀ s u : List Char, findGithubUsername s = some u → u ≠ [] ∧ u <:+: s := by
  intro s
  induction s with
  | nil => intro u h; exact absurd h (by simp [findGithubUsername])
  | cons c cs ih =>
    intro u h
    rw [findGithubUsername] at h
    split at h
    · next hpre =>
      split at h
      · next hrun =>
        rcases ih u h with ⟨hne, hinf⟩
        exact ⟨hne, List.infix_cons hinf⟩
      · next hrun =>
        have hu : u = ((c :: cs).drop 11).takeWhile usernameClassChar :=
          (Option.some.inj h).symm
        subst hu
        refine ⟨by simpa [List.isEmpty_iff] using hrun, ?_⟩
        exact (List.takeWhile_prefix _).isInfix.trans (List.drop_suffix _ _).isInfix
    · next hpre =>
      rcases ih u h with ⟨hne, hinf⟩
      exact ⟨hne, List.infix_cons hinf⟩

/-- C10.  A username extracted by the intent matcher comes from the
lowercased message: it is a nonempty substring of `message.lower()` and
contains no uppercase letter, and therefore neither does the saved artifact
filename `\x7busername\x7d_portfolio.html` nor the generated
`github.com` avatar URL. -/
theorem c10_lowercase_username (msg u : List Char) (h : extract_username msg = some u) :
    u ≠ [] ∧ u <:+: lowerLC msg
    ∧ (∀ c ∈ u, c.isUpper = false)
    ∧ (∀ c ∈ portfolio_filename u, c.isUpper = false)
    ∧ (∀ c ∈ github_avatar_url u, c.isUpper = false) := by
  rcases findGithubUsername_spec (lowerLC msg) u h with ⟨hne, hinf⟩
  have hchars : ∀ c ∈ u, c.isUpper = false := by
    intro c hc
    have hmem : c ∈ lowerLC msg := hinf.subset hc
    rw [lowerLC, List.mem_map] at hmem
    obtain ⟨c0, _, rfl⟩ := hmem
    exact toLower_isUpper_false c0
  refine ⟨hne, hinf, hchars, ?_, ?_⟩
  · intro c hc
    rw [portfolio_filename, List.mem_append] at hc
    rcases hc with hc | hc
    · exact hchars c hc
    · revert hc
      revert c
      decide
  · intro c hc
    rw [github_avatar_url, List.mem_append, List.mem_append] at hc
    rcases hc with (hc | hc) | hc
    · revert hc; revert c; decide
    · exact hchars c hc
    · revert hc; revert c; decide

/-- C10 witness: extraction from a message whose URL contains uppercase
letters yields the lowercase username, and the filename built from it has no
uppercase letter. -/
theorem c10_witness :
    extract_username (S "Build a PORTFOLIO for https://GitHub.com/SamChou05 now")
      = some (S "samchou05")
    ∧ (S "samchou05" <:+: lowerLC (S "Build a PORTFOLIO for https://GitHub.com/SamChou05 now"))
    ∧ (∀ c ∈ portfolio_filename (S "samchou05"), c.isUpper = false) := by
  have hx : extract_username (S "Build a PORTFOLIO for https://GitHub.com/SamChou05 now")
      = some (S "samchou05") := by decide
  have h := c10_lowercase_username _ _ hx
  exact ⟨hx, h.2.1, h.2.2.2.1⟩

/-! ## C5: repair run twice; C6: CSS brace balancing -/

/-- C5 counterexample.  On the input `<style>p\x7b\x7d</style>` the first
run wraps the content in the raw document skeleton (whose meta tag is
written `<meta charset="UTF-8">`); the second run re-serializes that tag in
the parser's XHTML style `<meta charset="UTF-8"/>`, one character longer, so
the final length comparison records the additional entry `Fixed HTML
structure and missing tags` instead of only `HTML structure is already
valid`. -/
theorem c5_counterexample :
    (complete_html_structure (S "<style>p\x7b\x7d</style>")).2
      = [S "Added basic HTML structure", S "Fixed HTML structure and missing tags"]
    ∧ (complete_html_structure
        (complete_html_structure (S "<style>p\x7b\x7d</style>")).1).2
      = [S "Fixed HTML structure and missing tags"]
    ∧ [S "Fixed HTML structure and missing tags"] ≠ [S "HTML structure is already valid"] := by
  refine ⟨rfl, rfl, ?_⟩
  decide

/-- C5 amended: a second run of `complete_html_structure` applies no further
structural, style, icon-font or brace fixes, but it is not a strict fixed
point of the *fix entries*: when the first run's output still contains the
skeleton's raw `<meta charset="UTF-8">` (not re-serialized because no later
fix rewrote the string), the second run's re-serialization changes the
length and records the single entry `Fixed HTML structure and missing
tags`.  When the first run's output is serializer-normal -- e.g. for
`<p>hi</p>`, where injecting the default stylesheet re-serializes the
document -- the second run records only `HTML structure is already
valid`. -/
theorem c5_amended :
    (complete_html_structure (S "<p>hi</p>")).2
      = [S "Added basic HTML structure", S "Added basic CSS",
         S "Fixed HTML structure and missing tags"]
    ∧ (complete_html_structure (complete_html_structure (S "<p>hi</p>")).1).2
      = [S "HTML structure is already valid"] := by
  exact ⟨rfl, rfl⟩

/-- C6.  For every `<style>` block text: when `\x7b`s outnumber `\x7d`s the
repair appends exactly the deficit of closing braces (after a newline) and
records a fix entry stating that exact count, and the fixed block has
balanced brace counts; when they do not, the block and the fix list are
unchanged.  The final conjunct shows the pass inside
`complete_html_structure` recording the exact count for a block with three
unmatched opening braces. -/
theorem c6_css_brace_fix (css : List Char) :
    (countChar braceR css < countChar braceL css →
      css_brace_fix css
        = (css ++ S "\n" ++ List.replicate (countChar braceL css - countChar braceR css) braceR,
           [S "Added " ++ natLC (countChar braceL css - countChar braceR css)
             ++ S " missing CSS closing braces"])
      ∧ countChar braceL (css_brace_fix css).1 = countChar braceR (css_brace_fix css).1)
    ∧ (countChar braceL css ≤ countChar braceR css → css_brace_fix css = (css, []))
    ∧ S "Added 3 missing CSS closing braces"
        ∈ (complete_html_structure (S "<style>a\x7b\x7b\x7b</style>")).2 := by
  refine ⟨?_, ?_, by decide⟩
  · intro h
    have heq : css_brace_fix css
        = (css ++ S "\n" ++ List.replicate (countChar braceL css - countChar braceR css) braceR,
           [S "Added " ++ natLC (countChar braceL css - countChar braceR css)
             ++ S " missing CSS closing braces"]) := by
      rw [css_brace_fix, if_pos h]
    refine ⟨heq, ?_⟩
    rw [heq]
    have hL : (braceR == braceL) = false := by decide
    have hR : (braceR == braceR) = true := by decide
    have hnl1 : List.count braceL (S "\n") = 0 := by decide
    have hnl2 : List.count braceR (S "\n") = 0 := by decide
    simp only [countChar] at h ⊢
    simp [List.count_append, List.count_replicate, hL, hR, hnl1, hnl2]
    omega
  · intro h
    rw [css_brace_fix, if_neg (by omega)]

/-- C6 witness: the brace-fix clauses at the concrete blocks `a\x7b\x7b\x7b`
(three opens, zero closes) and `p\x7b\x7d` (balanced). -/
theorem c6_witness :
    css_brace_fix (S "a\x7b\x7b\x7b")
      = (S "a\x7b\x7b\x7b" ++ S "\n" ++ List.replicate 3 braceR,
         [S "Added " ++ natLC 3 ++ S " missing CSS closing braces"])
    ∧ css_brace_fix (S "p\x7b\x7d") = (S "p\x7b\x7d", []) := by
  constructor
  · have h := (c6_css_brace_fix (S "a\x7b\x7b\x7b")).1 (by decide)
    have h3 : countChar braceL (S "a\x7b\x7b\x7b") - countChar braceR (S "a\x7b\x7b\x7b") = 3 := by
      decide
    rw [h3] at h
    exact h.1
  · exact (c6_css_brace_fix (S "p\x7b\x7d")).2.1 (by decide)

/-! ## The f-string scan of the raw renderer template

The raw template is ~4200 characters, too long for the kernel to run the
field collector over it in one recursion; instead the collector is evaluated
compositionally over the token decomposition of the text: a brace-free text
run is passed over, and a well-delimited field is grabbed whole. -/

/-- Running `grabFSField` over a chunk of field text whose state-machine run
is known just steps the state and moves the chunk (reversed) onto the
accumulator. -/
theorem grab_append (q0 : Option Char) (fld : List Char) :
    ∀ (d : Nat) (q : Option Char) (p : Nat × Option Char) (acc rest : List Char) (fuel : Nat),
      grabSim fld d q = some p → fld.length ≤ fuel →
      grabFSField q0 fuel (fld ++ rest) d q acc
        = grabFSField q0 (fuel - fld.length) rest p.1 p.2 (fld.reverse ++ acc) := by
  induction fld with
  | nil =>
    intro d q p acc rest fuel hsim _
    simp only [grabSim] at hsim
    cases hsim
    simp
  | cons c cs ih =>
    intro d q p acc rest fuel hsim hlen
    simp only [List.length_cons] at hlen ⊢
    obtain ⟨f, rfl⟩ : ∃ f, fuel = f + 1 := ⟨fuel - 1, by omega⟩
    have hlen' : cs.length ≤ f := by omega
    simp only [List.cons_append, grabFSField, List.append_eq]
    cases q with
    | some qq =>
      simp only [grabSim] at hsim
      dsimp only
      rw [ih _ _ _ _ _ _ hsim hlen']
      simp [List.append_assoc, Nat.add_sub_add_right]
    | none =>
      simp only [grabSim] at hsim
      dsimp only
      by_cases h1 : (c == squote || c == '"') = true
      · simp only [h1, if_true] at hsim ⊢
        rw [ih _ _ _ _ _ _ hsim hlen']
        simp [List.append_assoc, Nat.add_sub_add_right]
      · simp only [h1] at hsim ⊢
        by_cases h2 : (c == braceL || c == '(' || c == '[') = true
        · simp only [h2, if_true, if_false, Bool.false_eq_true] at hsim ⊢
          rw [ih _ _ _ _ _ _ hsim hlen']
          simp [List.append_assoc, Nat.add_sub_add_right]
        · simp only [h2, if_false, Bool.false_eq_true] at hsim ⊢
          by_cases h3 : (c == braceR) = true
          · simp only [h3, if_true] at hsim ⊢
            by_cases h4 : (d == 0) = true
            · simp only [h4, if_true] at hsim
              cases hsim
            · simp only [h4, if_false, Bool.false_eq_true] at hsim ⊢
              rw [ih _ _ _ _ _ _ hsim hlen']
              simp [List.append_assoc, Nat.add_sub_add_right]
          · simp only [h3, if_false, Bool.false_eq_true] at hsim ⊢
            by_cases h5 : (c == ')' || c == ']') = true
            · simp only [h5, if_true] at hsim ⊢
              rw [ih _ _ _ _ _ _ hsim hlen']
              simp [List.append_assoc, Nat.add_sub_add_right]
            · simp only [h5, if_false, Bool.false_eq_true] at hsim ⊢
              rw [ih _ _ _ _ _ _ hsim hlen']
              simp [List.append_assoc, Nat.add_sub_add_right]

/-- The field collector passes straight over a brace-free text run,
consuming one unit of fuel per character. -/
theorem collect_nobrace (cs : List Char) :
    ∀ (rest : List Char) (fuel : Nat), noBraceChunk cs = true → cs.length ≤ fuel →
      collectFSFields fuel (cs ++ rest) = collectFSFields (fuel - cs.length) rest := by
  induction cs with
  | nil => intro rest fuel _ _; simp
  | cons c cs ih =>
    intro rest fuel hnb hlen
    simp only [noBraceChunk, List.all_cons, Bool.and_eq_true, Bool.not_eq_true'] at hnb
    obtain ⟨⟨hL, hR⟩, htl⟩ := hnb
    simp only [List.length_cons] at hlen ⊢
    obtain ⟨f, rfl⟩ : ∃ f, fuel = f + 1 := ⟨fuel - 1, by omega⟩
    simp only [List.cons_append, collectFSFields, hL, hR, if_false, Bool.false_eq_true,
      List.append_eq]
    rw [ih rest f (by simp [noBraceChunk, htl]) (by omega)]
    simp [Nat.add_sub_add_right]

/-- Consuming a token list always takes at least one unit of fuel. -/
theorem toksFuel_pos (ts : List FSTok) : 1 ≤ toksFuel ts := by
  induction ts with
  | nil => simp [toksFuel]
  | cons t ts ih => cases t <;> simp [toksFuel] <;> omega

/-- The fuel needed for a token list is bounded by the length of the text it
denotes, plus one. -/
theorem toksFuel_le_flatten (ts : List FSTok) :
    toksFuel ts ≤ (toksFlatten ts).length + 1 := by
  induction ts with
  | nil => simp [toksFuel, toksFlatten]
  | cons t ts ih =>
    cases t with
    | text cs =>
      simp only [toksFuel, toksFlatten, List.length_append]
      omega
    | field fld =>
      simp only [toksFuel, toksFlatten, List.length_cons, List.length_append]
      omega

/-- With enough fuel, the field collector over the text a well-formed token
list denotes returns exactly the fields of the token list. -/
theorem collect_toks (ts : List FSTok) :
    ∀ (fuel : Nat), toksOk ts = true → toksFuel ts ≤ fuel →
      collectFSFields fuel (toksFlatten ts) = some (toksFields ts) := by
  induction ts with
  | nil =>
    intro fuel _ hf
    simp only [toksFuel] at hf
    obtain ⟨f, rfl⟩ : ∃ f, fuel = f + 1 := ⟨fuel - 1, by omega⟩
    simp [toksFlatten, toksFields, collectFSFields]
  | cons t ts ih =>
    cases t with
    | text cs =>
      intro fuel hok hf
      simp only [toksOk, Bool.and_eq_true] at hok
      simp only [toksFuel] at hf
      have hpos := toksFuel_pos ts
      simp only [toksFlatten, toksFields]
      rw [collect_nobrace cs _ fuel hok.1 (by omega)]
      exact ih _ hok.2 (by omega)
    | field fld =>
      intro fuel hok hf
      simp only [toksOk, Bool.and_eq_true] at hok
      obtain ⟨hfOk, hts⟩ := hok
      simp only [toksFuel] at hf
      have hpos := toksFuel_pos ts
      obtain ⟨f, rfl⟩ : ∃ f, fuel = f + 1 := ⟨fuel - 1, by omega⟩
      simp only [fieldTokOk, Bool.and_eq_true, decide_eq_true_eq] at hfOk
      obtain ⟨hhead, hsim⟩ := hfOk
      cases fld with
      | nil => simp at hhead
      | cons c2 fld' =>
        simp only [Bool.not_eq_true'] at hhead
        simp only [List.length_cons] at hf
        have hflen : fld'.length + 1 ≤ f := by omega
        have hgrab : grabFSField none f ((c2 :: fld') ++ (braceR :: toksFlatten ts)) 0 none []
            = some (c2 :: fld', toksFlatten ts) := by
          rw [grab_append none (c2 :: fld') 0 none (0, none) [] _ f hsim
            (by simp only [List.length_cons]; exact hflen)]
          obtain ⟨g, hg⟩ : ∃ g, f - (c2 :: fld').length = g + 1 :=
            ⟨f - (c2 :: fld').length - 1, by simp only [List.length_cons]; omega⟩
          rw [hg]
          simp only [grabFSField,
            show (braceR == squote) = false from by decide,
            show (braceR == Char.ofNat 34) = false from by decide,
            show (braceR == braceL) = false from by decide,
            show (braceR == Char.ofNat 40) = false from by decide,
            show (braceR == Char.ofNat 91) = false from by decide,
            show (braceR == braceR) = true from by decide,
            Bool.or_self, Bool.or_false, Bool.false_or, if_false, if_true,
            Bool.false_eq_true, Nat.zero_eq, beq_self_eq_true]
          simp
        simp only [toksFlatten, toksFields, List.cons_append, collectFSFields,
          beq_self_eq_true, if_true, hhead, if_false, Bool.false_eq_true]
        rw [show c2 :: (fld' ++ braceR :: toksFlatten ts)
              = (c2 :: fld') ++ (braceR :: toksFlatten ts) from by simp]
        rw [hgrab]
        dsimp only
        rw [ih f hts (by omega)]
        rfl

/-- The field collector run by `renderer_template_wf` returns exactly the 21
replacement fields of the raw template, in source order. -/
theorem collect_raw :
    collectFSFields (2 * renderer_template_raw.length + 4) renderer_template_raw
      = some (toksFields renderer_template_tokens) := by
  refine collect_toks _ _ (by decide) ?_
  have h := toksFuel_le_flatten renderer_template_tokens
  simp only [renderer_template_raw]
  omega

/-- The raw renderer template is not a well-formed f-string body: its
JavaScript statement fields contain top-level semicolons. -/
theorem renderer_template_wf_false : renderer_template_wf = false := by
  have h : renderer_template_wf
      = (toksFields renderer_template_tokens).all field_plausible_expr := by
    unfold renderer_template_wf
    rw [collect_raw]
  rw [h]
  decide

/-! ## C2: how the renderer fails; C4: repository cards -/

/-- C2 counterexample.  Calling the renderer on a concrete profile does not
raise `NameError` while assembling the template: `main.py` itself fails to
parse, because the template f-string's `<script>` section has replacement
fields that cannot be Python expressions (they contain top-level
semicolons), so the failure is a `SyntaxError` at import and no call is ever
evaluated. -/
theorem c2_counterexample :
    generate_portfolio_website { profile := { name := S "ada" } }
      = Except.error PyError.syntaxErrorAtImport
    ∧ PyError.syntaxErrorAtImport ≠ PyError.nameError
    ∧ renderer_template_wf = false
    ∧ ((collectFSFields (2 * renderer_template_raw.length + 4) renderer_template_raw).getD []).any
        (fun fld => bareSemicolonAux fld none) = true := by
  refine ⟨?_, by decide, renderer_template_wf_false, ?_⟩
  · simp only [generate_portfolio_website, renderer_template_wf_false]
    rfl
  · rw [collect_raw]
    decide

/-- C2 amended: the renderer never returns an HTML string for any input,
but the failure mode is a module-level `SyntaxError` -- the template
f-string's script section uses unescaped braces, so `main.py` does not parse
-- rather than a `NameError` raised per call; `datetime` is indeed never
imported (so after escaping the braces, assembling the template would raise
the claimed `NameError` at the footer's `datetime.datetime.now().year`). -/
theorem c2_amended (pd : ProfileData) :
    generate_portfolio_website pd = Except.error PyError.syntaxErrorAtImport
    ∧ datetime_is_bound = false := by
  constructor
  · simp only [generate_portfolio_website, renderer_template_wf_false]
    rfl
  · decide

/-- C4.  The card-generation step (`for repo in repos[:6]` over the
star-sorted list) emits exactly `min(N, 6)` cards and every card is built
from a repository of the input list (no out-of-range access); with `N ≤ 5`
that is exactly `N` cards.  The renderer as a whole, however, never returns
this output: `main.py` fails to parse (and `datetime` is unbound), shown
here at a concrete payload. -/
theorem c4_repo_cards (name : List Char) (repos : List Repo) (h : repos.length ≤ 5) :
    (repo_card_blocks name (pySortedDesc repoStarKey repos)).length = min repos.length 6
    ∧ min repos.length 6 = repos.length
    ∧ (∀ b ∈ repo_card_blocks name (pySortedDesc repoStarKey repos),
        ∃ r ∈ repos, b = repo_card name r)
    ∧ generate_portfolio_website { profile := { name := name }, repos := repos }
        = Except.error PyError.syntaxErrorAtImport := by
  have hperm := pySortedDesc_perm repoStarKey repos
  have hlen : (pySortedDesc repoStarKey repos).length = repos.length := hperm.length_eq
  refine ⟨?_, by omega, ?_, ?_⟩
  · rw [repo_card_blocks, List.length_map, List.length_take, hlen, Nat.min_comm]
  · intro b hb
    rw [repo_card_blocks, List.mem_map] at hb
    obtain ⟨r, hr, rfl⟩ := hb
    exact ⟨r, hperm.mem_iff.1 (List.mem_of_mem_take hr), rfl⟩
  · simp only [generate_portfolio_website, renderer_template_wf_false]
    rfl

/-- C4 witness: the card property at a concrete one-repository payload. -/
theorem c4_witness :
    (repo_card_blocks (S "ada")
        (pySortedDesc repoStarKey [{ name := S "x", language := S "Rust", stars := 10 }])).length
      = min 1 6
    ∧ (∀ b ∈ repo_card_blocks (S "ada")
          (pySortedDesc repoStarKey [{ name := S "x", language := S "Rust", stars := 10 }]),
        ∃ r ∈ [({ name := S "x", language := S "Rust", stars := 10 } : Repo)],
          b = repo_card (S "ada") r) := by
  have h := c4_repo_cards (S "ada") [{ name := S "x", language := S "Rust", stars := 10 }]
    (by decide)
  exact ⟨h.1, h.2.2.1⟩

/-! ## C9: the conditional contact and footer blocks -/

/-- C9.  In the document the renderer template denotes, each conditional
block contributes either its markup or the empty string (so omission leaves
no dangling markup), and the location and blog blocks are present iff the
corresponding profile field is non-empty.  The twitter blocks, however, are
absent for EVERY profile, non-empty handle or not: the renderer reads
`profile.get('twitter_username', '')` (main.py line 244) while
`fetch_github_profile` stores the handle under the key `twitter` (line 201),
so the lookup always returns the empty default. -/
theorem c9_conditional_blocks (pd : ProfileData) (year : Nat) :
    assembled_template year pd
      = tmpl_chunk0 pd
          ++ contact_location_part (Profile.get pd.profile (S "location") [])
          ++ tmplSeg9 ++ contact_blog_part (Profile.get pd.profile (S "blog") [])
          ++ tmplSeg10 ++ contact_twitter_part (renderer_twitter pd.profile)
          ++ tmpl_chunk1 year pd
          ++ footer_twitter_part (renderer_twitter pd.profile)
          ++ tmplSeg18 ++ footer_blog_part (Profile.get pd.profile (S "blog") [])
          ++ tmpl_chunk2
    ∧ (contact_location_part (Profile.get pd.profile (S "location") []) = []
        ↔ pd.profile.location = [])
    ∧ (contact_blog_part (Profile.get pd.profile (S "blog") []) = []
        ↔ pd.profile.blog = [])
    ∧ (footer_blog_part (Profile.get pd.profile (S "blog") []) = []
        ↔ pd.profile.blog = [])
    ∧ renderer_twitter pd.profile = []
    ∧ contact_twitter_part (renderer_twitter pd.profile) = []
    ∧ footer_twitter_part (renderer_twitter pd.profile) = [] := by
  have hloc : Profile.get pd.profile (S "location") [] = pd.profile.location := rfl
  have hblog : Profile.get pd.profile (S "blog") [] = pd.profile.blog := rfl
  have htw : renderer_twitter pd.profile = [] := rfl
  refine ⟨?_, ?_, ?_, ?_, htw, ?_, ?_⟩
  · simp only [assembled_template, tmpl_chunk0, tmpl_chunk1, tmpl_chunk2, List.append_assoc]
  · rw [hloc]
    cases h : pd.profile.location with
    | nil => simp [contact_location_part]
    | cons a as => simp [contact_location_part, List.append_eq_nil]
  · rw [hblog]
    cases h : pd.profile.blog with
    | nil => simp [contact_blog_part]
    | cons a as => simp [contact_blog_part, List.append_eq_nil]
  · rw [hblog]
    cases h : pd.profile.blog with
    | nil => simp [footer_blog_part]
    | cons a as => simp [footer_blog_part, List.append_eq_nil]
  · rw [htw]
    rfl
  · rw [htw]
    rfl

/-- C9 witness: at a concrete profile whose twitter handle is the non-empty
`alice`, the renderer's twitter lookup still comes back empty and both
twitter blocks are omitted from the document. -/
theorem c9_witness :
    renderer_twitter { name := S "ada", twitter := S "alice" } = []
    ∧ contact_twitter_part (renderer_twitter { name := S "ada", twitter := S "alice" }) = []
    ∧ footer_twitter_part (renderer_twitter { name := S "ada", twitter := S "alice" }) = []
    ∧ ({ name := S "ada", twitter := S "alice" } : Profile).twitter ≠ [] := by
  have h := c9_conditional_blocks { profile := { name := S "ada", twitter := S "alice" } } 0
  exact ⟨h.2.2.2.2.1, h.2.2.2.2.2.1, h.2.2.2.2.2.2, by decide⟩

/-! ## C1: the final artifact's structural tags -/

/-- Occurrences of a token that cannot overlap the replaced pattern survive
one post-processing step. -/
theorem replace_if_absent_preserves (present : Bool) (s pat rep t : List Char)
    (hpat : pat ≠ []) (hfree : overlapFree t pat = true) (ht : t <:+: s) :
    t <:+: replace_if_absent present s pat rep := by
  cases present
  · exact infix_preserved_pyReplace rep hpat hfree ht
  · exact ht

/-- Case-folded variant: occurrences in the lower-cased string survive one
post-processing step when the token cannot overlap the lower-cased pattern. -/
theorem replace_if_absent_preserves_lower (present : Bool) (s pat rep t : List Char)
    (hpat : pat ≠ []) (hfree : overlapFree t (lowerLC pat) = true) (ht : t <:+: lowerLC s) :
    t <:+: lowerLC (replace_if_absent present s pat rep) := by
  cases present
  · exact infix_lower_preserved_pyReplace rep hpat hfree ht
  · exact ht

/-- C1 counterexample.  A fenced generation response is extracted verbatim
with no validation; on a response whose fenced body is a bare div, the
repair-keeps-current path and all three post-processing steps leave it
unchanged (each inserts by replacing a tag that is not present), so the
final artifact handed to the caller has no html, head or body tag, no style
source and no script block. -/
theorem c1_counterexample :
    extract_generated_html (S "```html\n<div>hi</div>\n```") = some (S "<div>hi</div>")
    ∧ pipeline_final_html (S "bob") (S "<div>hi</div>") (S "Sorry, something went wrong.")
        = S "<div>hi</div>"
    ∧ containsLC (S "<div>hi</div>") (S "<html") = false
    ∧ containsLC (S "<div>hi</div>") (S "<head") = false
    ∧ containsLC (S "<div>hi</div>") (S "<body") = false
    ∧ containsLC (S "<div>hi</div>") (S "<style") = false
    ∧ containsLC (S "<div>hi</div>") (S "<link") = false
    ∧ containsCI (S "<div>hi</div>") (S "<script") = false := by
  exact ⟨by decide, by decide, by decide, by decide, by decide, by decide, by decide, by decide⟩

/-- C1 amended: the pipeline does not itself establish the structural tags;
they are post-conditions only when the HTML entering post-processing already
has them.  When that HTML contains html, head (with its closing bracket),
body and closing-body tags and a style block, the final artifact keeps the
html, head, body and style tags, and moreover always carries a script block:
the first post-processing step inserts one before the closing body tag
whenever none is present. -/
theorem c1_amended (username html : List Char)
    (hhtml : S "<html" <:+: html)
    (hhead : S "<head>" <:+: html)
    (hbody : S "<body" <:+: html)
    (hcbody : S "</body>" <:+: html)
    (hstyle : S "<style" <:+: html) :
    S "<html" <:+: post_process username html
    ∧ S "<head" <:+: post_process username html
    ∧ S "<body" <:+: post_process username html
    ∧ S "<style" <:+: post_process username html
    ∧ S "<script" <:+: lowerLC (post_process username html) := by
  obtain ⟨s1, hs1⟩ : ∃ s1, replace_if_absent (containsCI html (S "<script")) html
      (S "</body>") script_block = s1 := ⟨_, rfl⟩
  obtain ⟨s2, hs2⟩ : ∃ s2, replace_if_absent
      (containsCI s1 (S "font-awesome") || containsCI s1 (S "fontawesome")) s1
      (S "</head>") fa_link_block = s2 := ⟨_, rfl⟩
  have hpp : post_process username html
      = replace_if_absent (containsCI s2 (S "<meta name=\"description\"")) s2
          (S "<head>") (meta_block username) := by
    simp only [post_process]
    rw [hs1, hs2]
  have h1html : S "<html" <:+: s1 := by
    rw [← hs1]
    exact replace_if_absent_preserves _ _ _ _ _ (by decide) (by decide) hhtml
  have h1head : S "<head>" <:+: s1 := by
    rw [← hs1]
    exact replace_if_absent_preserves _ _ _ _ _ (by decide) (by decide) hhead
  have h1body : S "<body" <:+: s1 := by
    rw [← hs1]
    exact replace_if_absent_preserves _ _ _ _ _ (by decide) (by decide) hbody
  have h1style : S "<style" <:+: s1 := by
    rw [← hs1]
    exact replace_if_absent_preserves _ _ _ _ _ (by decide) (by decide) hstyle
  have h1script : S "<script" <:+: lowerLC s1 := by
    rw [← hs1]
    cases hc : containsCI html (S "<script") with
    | false =>
      show S "<script" <:+: lowerLC (pyReplace html (S "</body>") script_block)
      have hrep : script_block <:+: pyReplace html (S "</body>") script_block :=
        rep_infix_pyReplace script_block (by decide) hcbody
      have hsc : S "<script" <:+: lowerLC script_block := by
        rw [← containsLC_iff]
        decide
      exact hsc.trans (hrep.map Char.toLower)
    | true =>
      show S "<script" <:+: lowerLC html
      rw [← containsLC_iff]
      exact hc
  have h2html : S "<html" <:+: s2 := by
    rw [← hs2]
    exact replace_if_absent_preserves _ _ _ _ _ (by decide) (by decide) h1html
  have h2head : S "<head>" <:+: s2 := by
    rw [← hs2]
    exact replace_if_absent_preserves _ _ _ _ _ (by decide) (by decide) h1head
  have h2body : S "<body" <:+: s2 := by
    rw [← hs2]
    exact replace_if_absent_preserves _ _ _ _ _ (by decide) (by decide) h1body
  have h2style : S "<style" <:+: s2 := by
    rw [← hs2]
    exact replace_if_absent_preserves _ _ _ _ _ (by decide) (by decide) h1style
  have h2script : S "<script" <:+: lowerLC s2 := by
    rw [← hs2]
    exact replace_if_absent_preserves_lower _ _ _ _ _ (by decide) (by decide) h1script
  rw [hpp]
  refine ⟨?_, ?_, ?_, ?_, ?_⟩
  · exact replace_if_absent_preserves _ _ _ _ _ (by decide) (by decide) h2html
  · cases hm : containsCI s2 (S "<meta name=\"description\"") with
    | true =>
      show S "<head" <:+: s2
      have hh : S "<head" <:+: S "<head>" := by
        rw [← containsLC_iff]
        decide
      exact hh.trans h2head
    | false =>
      show S "<head" <:+: pyReplace s2 (S "<head>") (meta_block username)
      have hrep : meta_block username <:+: pyReplace s2 (S "<head>") (meta_block username) :=
        rep_infix_pyReplace _ (by decide) h2head
      have hin : S "<head" <:+: meta_block username := by
        have hpre : S "<head" <:+: S "<head>\n                        <meta name=\"description\" content=\"Portfolio website for GitHub user " := by
          rw [← containsLC_iff]
          decide
        exact infix_append_right _ (infix_append_right _ (infix_append_right _
          (infix_append_right _ hpre)))
      exact hin.trans hrep
  · exact replace_if_absent_preserves _ _ _ _ _ (by decide) (by decide) h2body
  · exact replace_if_absent_preserves _ _ _ _ _ (by decide) (by decide) h2style
  · exact replace_if_absent_preserves_lower _ _ _ _ _ (by decide) (by decide) h2script

/-- C1 witness: the amended claim applied to a concrete structurally
complete document entering post-processing. -/
theorem c1_witness :
    (S "</body>" <:+: S "<html><head><style>x</style></head><body></body></html>")
    ∧ (S "<script" <:+: lowerLC (post_process (S "octocat")
        (S "<html><head><style>x</style></head><body></body></html>"))) := by
  refine ⟨(containsLC_iff _ _).mp (by decide), ?_⟩
  exact (c1_amended (S "octocat") (S "<html><head><style>x</style></head><body></body></html>")
    ((containsLC_iff _ _).mp (by decide)) ((containsLC_iff _ _).mp (by decide))
    ((containsLC_iff _ _).mp (by decide)) ((containsLC_iff _ _).mp (by decide))
    ((containsLC_iff _ _).mp (by decide))).2.2.2.2

end PWC
